import Mathlib

/-!
# promise-data-to: the request-dispatch retry state machine

A shallow embedding of `src/lib/promise-data-to.js`.

The promise returned by `promiseDataTo` is modelled by a `Call` record: the
call-scoped attempt counter, the state of the promise, the stats record of every
request created so far, the retry timers that are armed and a trace of the
side effects performed, in order. The callbacks that the source registers (the
response callback, the request error handler, the retry timer) are functions on
`Call`. What the repository imports from files that are not part of the source
tree (the Endpoint and Headers classes, the payload encoder, the header builder,
the simulated response) and the two coercions of the JavaScript runtime that the
code relies on are fields of `Collaborators`. Calls to the logger change nothing
in the control flow and are left out.
-/

namespace PromiseDataTo

/-! ## Values -/

/-- Bytes of a Buffer. -/
abbrev Bytes := List Nat

/-- A plain header object. -/
abbrev HeaderMap := List (String × String)

/-- The payload handed to the call, before encoding. -/
abbrev InputData := String

/-- The encoded payload, as returned by getProperDataFromInputData. -/
abbrev Data := String

/-- A JavaScript number: NaN or an integer value. -/
inductive JSNumber where
  | NaN
  | num (v : Int)
  deriving DecidableEq, Repr

/-- Truthiness of a number: NaN and 0 are falsy. -/
def JSNumber.truthy : JSNumber → Bool
  | .NaN => false
  | .num v => v != 0

/-- An instance of Error: only its message is observed. -/
structure JSError where
  message : String
  deriving DecidableEq, Repr

/-- The values a timeout setting may hold. -/
inductive TimeoutValue where
  | undefined
  | null
  | number (n : JSNumber)
  | string (s : String)
  deriving DecidableEq, Repr

/-- A resolved Endpoint, as far as promiseDataTo reads it. A field that the
destructuring at the top of promiseDataTo gives a default is `none` when the
endpoint leaves it undefined. -/
structure Endpoint where
  host : String
  port : Nat
  path : String
  href : String
  query : Option String
  method : Option String
  maxRetry : Option Int
  timeout : TimeoutValue
  compress : Option Bool
  headers : HeaderMap
  deriving DecidableEq, Repr

/-- What a caller may pass as the first argument of promiseDataTo. -/
inductive EndpointInput where
  | undefined
  | null
  | bool (b : Bool)
  | number (n : JSNumber)
  | string (s : String)
  | object (fields : List (String × String))
  | endpoint (e : Endpoint)
  deriving DecidableEq, Repr

/-- Truthiness of the endpoint argument, the test `!endpoint` negated. -/
def EndpointInput.truthy : EndpointInput → Bool
  | .undefined => false
  | .null => false
  | .bool b => b
  | .number n => n.truthy
  | .string s => s != ""
  | .object _ => true
  | .endpoint _ => true

/-- The test `endpoint instanceof Endpoint`. -/
def EndpointInput.instanceofEndpoint : EndpointInput → Bool
  | .endpoint _ => true
  | _ => false

/-- The per-call options object. -/
structure DispatchOptions where
  method : Option String
  headers : Option HeaderMap
  deriving DecidableEq, Repr

/-- The per-attempt stats record. The first six fields are the arguments of
buildResponse; the others are the properties that promiseDataTo assigns. -/
structure Stats where
  endpoint : Endpoint
  inputData : InputData
  headers : HeaderMap
  compress : Bool
  start : Nat
  attempt : Nat
  end_ : Option Nat
  code : Option Nat
  responseHeaders : Option HeaderMap
  responseBuffer : Option Bytes
  err : Option JSError
  deriving DecidableEq, Repr

/-- Modelled from the spec: buildResponse (./build-response is not part of the
source tree). It allocates a fresh record for one attempt that holds its
arguments, with no end time, status code, response or error yet. -/
def buildResponse (endpoint : Endpoint) (inputData : InputData) (headers : HeaderMap)
    (compress : Bool) (start : Nat) (attempt : Nat) : Stats :=
  { endpoint := endpoint, inputData := inputData, headers := headers, compress := compress,
    start := start, attempt := attempt, end_ := none, code := none,
    responseHeaders := none, responseBuffer := none, err := none }

/-- The imports of promise-data-to.js that are not part of the source tree, and
the coercions of the JavaScript runtime. All of them are taken to return
normally. -/
structure Collaborators where
  /-- The constructor call `new Endpoint(endpoint)`. -/
  newEndpoint : EndpointInput → Endpoint
  /-- The expression `new Headers(h).toObject()`. -/
  headersToObject : HeaderMap → HeaderMap
  /-- The payload encoder: input data and compress flag. -/
  getProperDataFromInputData : InputData → Bool → Data
  /-- The header builder: headers, encoded payload and compress flag. -/
  setHeaders : HeaderMap → Data → Bool → HeaderMap
  /-- The synthetic record of the simulate mode. -/
  simulatedResponse : Endpoint → InputData → HeaderMap → Bool → Nat → Stats
  /-- The getter `stats.responseText`. -/
  responseText : Stats → String
  /-- The runtime method `String.prototype.toUpperCase`. -/
  toUpperCase : String → String
  /-- The runtime coercion of a string to a number, as unary plus does it. -/
  stringToNumber : String → JSNumber

/-- The constants that the module reads from the process environment when it is
loaded. -/
structure Config where
  SIMULATE : JSNumber
  MAX_RETRY_ATTEMPTS : Int
  REQUEST_TIMEOUT_MS : TimeoutValue
  deriving DecidableEq, Repr

/-- The state of a promise. -/
inductive Settled (α ε : Type) where
  | pending
  | resolved (value : α)
  | rejected (reason : ε)
  deriving DecidableEq, Repr

/-- The value a rejected promiseDataTo call carries: an Error object, with its
`stats` property when one was assigned, or a stats record. -/
inductive Rejection where
  | error (err : JSError) (stats : Option Stats)
  | stats (s : Stats)
  deriving DecidableEq, Repr

/-- The first argument of tryAgain: a string or an Error. -/
inductive Failure where
  | text (s : String)
  | error (e : JSError)
  deriving DecidableEq, Repr

/-- The options object passed to `endpoint.http.request`. -/
structure RequestOptions where
  host : String
  port : Nat
  query : Option String
  path : String
  method : String
  headers : HeaderMap
  deriving DecidableEq, Repr

/-- The side effects of one call, as recorded in its trace. -/
inductive Effect where
  /-- A call of getProperDataFromInputData. -/
  | encode
  /-- A call of getHeaders. -/
  | buildHeaders
  /-- A call of simulatedResponse. -/
  | simulate
  /-- A call of `endpoint.http.request` for the given attempt. -/
  | request (attempt : Nat) (options : RequestOptions)
  /-- The socket handler of the attempt is registered with this timeout. -/
  | socketTimeout (attempt : Nat) (timeout : TimeoutValue)
  /-- A `request.write(data)` of the attempt. -/
  | write (attempt : Nat) (data : Data)
  /-- The `request.end()` of the attempt. -/
  | end_ (attempt : Nat)
  /-- A `setTimeout` with the given delay. -/
  | setTimeout (ms : Nat)
  /-- A `request.abort()` on the request of the attempt. -/
  | abort (attempt : Nat)
  deriving DecidableEq, Repr

/-! ## The module -/

/-- The set `writeMethods`. -/
def writeMethods : List String := ["PUT", "PATCH", "POST"]

/-- The function getEndpoint: it throws on a falsy argument, wraps what is not an
Endpoint and returns an Endpoint as it is. -/
def getEndpoint (d : Collaborators) (endpoint : EndpointInput) : Except JSError Endpoint :=
  if !endpoint.truthy then
    .error ⟨"EM: INVALID ENDPOINT"⟩
  else
    match endpoint with
    | .endpoint e => .ok e
    | other => .ok (d.newEndpoint other)

/-- The function getHeaders. Its options argument may be falsy (`none`). -/
def getHeaders (d : Collaborators) (endpoint : Endpoint) (options : Option DispatchOptions)
    (data : Data) (compress : Bool) : HeaderMap :=
  let headers :=
    match options with
    | some o =>
      match o.headers with
      | some h => d.headersToObject h
      | none => endpoint.headers
    | none => endpoint.headers
  d.setHeaders headers data compress

/-- The events of a response stream. -/
inductive StreamEvent where
  | data (chunk : Bytes)
  | end_
  | error (e : JSError)
  deriving DecidableEq, Repr

/-- The listeners of readStreamPromise, run over the events of the stream with
the chunks buffered so far. -/
def readStreamPromise.listen (buffers : List Bytes) : List StreamEvent → Settled Bytes JSError
  | [] => .pending
  | .data chunk :: rest => readStreamPromise.listen (buffers ++ [chunk]) rest
  | .end_ :: _ => .resolved buffers.flatten
  | .error e :: _ => .rejected e

/-- The function readStreamPromise, given the events that the response emits. -/
def readStreamPromise (response : List StreamEvent) : Settled Bytes JSError :=
  readStreamPromise.listen [] response

/-- The constants of one promiseDataTo call that post and tryAgain close
over. -/
structure Closure where
  endpoint : Endpoint
  inputData : InputData
  method : String
  maxRetry : Int
  timeout : TimeoutValue
  compress : Bool
  data : Data
  start : Nat
  headers : HeaderMap
  deriving DecidableEq, Repr

/-- The default of `method` in the destructuring: `options.method || "POST"`. -/
def methodDefault (options : DispatchOptions) : String :=
  match options.method with
  | some m => if m != "" then m else "POST"
  | none => "POST"

/-- Lines 50 to 63 of promiseDataTo: the destructuring of the endpoint with its
defaults, the encoded payload, the start time and the headers. -/
def scope (d : Collaborators) (cfg : Config) (now : Nat) (endpoint : Endpoint)
    (inputData : InputData) (options : DispatchOptions) : Closure :=
  let method := match endpoint.method with
    | some m => m
    | none => methodDefault options
  let maxRetry := match endpoint.maxRetry with
    | some m => m
    | none => cfg.MAX_RETRY_ATTEMPTS
  let timeout := match endpoint.timeout with
    | .undefined => cfg.REQUEST_TIMEOUT_MS
    | t => t
  let compress := match endpoint.compress with
    | some b => b
    | none => false
  let data := d.getProperDataFromInputData inputData compress
  let start := now
  let headers := getHeaders d endpoint (some options) data compress
  { endpoint := endpoint, inputData := inputData, method := method, maxRetry := maxRetry,
    timeout := timeout, compress := compress, data := data, start := start,
    headers := headers }

/-- The object `requestOptions`. -/
def requestOptions (x : Closure) : RequestOptions :=
  { host := x.endpoint.host, port := x.endpoint.port, query := x.endpoint.query,
    path := x.endpoint.path, method := x.method, headers := x.headers }

/-- The test `timeout != null`, negated. -/
def TimeoutValue.isNullish : TimeoutValue → Bool
  | .undefined => true
  | .null => true
  | _ => false

/-- The coercion `+timeout`. -/
def TimeoutValue.toNumber (d : Collaborators) : TimeoutValue → JSNumber
  | .undefined => .NaN
  | .null => .num 0
  | .number n => n
  | .string s => d.stringToNumber s

/-- The test `Number.isNaN`. -/
def JSNumber.isNaN : JSNumber → Bool
  | .NaN => true
  | .num _ => false

/-- The text of a timeout value inside a template literal. -/
def TimeoutValue.toString : TimeoutValue → String
  | .undefined => "undefined"
  | .null => "null"
  | .number .NaN => "NaN"
  | .number (.num v) => ToString.toString v
  | .string s => s

/-- The state of one promiseDataTo call. -/
structure Call where
  /-- The variable `attempt`. -/
  attempt : Nat
  /-- The promise that promiseDataTo returned. -/
  promise : Settled Stats Rejection
  /-- The stats record of every request created so far, oldest first. The
  callbacks of request number i hold the record at index i. -/
  requests : List Stats
  /-- The number of retry timers that are armed. -/
  timers : Nat
  /-- The side effects so far, oldest first. -/
  trace : List Effect
  /-- Errors that no handler caught: an exception thrown out of a timer
  callback, or the rejection of the asynchronous response callback. -/
  unhandled : List JSError
  deriving DecidableEq, Repr

/-- The state at the start of the executor, with `attempt = 1`. -/
def Call.new : Call :=
  { attempt := 1, promise := .pending, requests := [], timers := 0, trace := [],
    unhandled := [] }

/-- The function `resolve` of the promise: no effect once it is settled. -/
def Call.resolve (c : Call) (s : Stats) : Call :=
  match c.promise with
  | .pending => { c with promise := .resolved s }
  | _ => c

/-- The function `reject` of the promise: no effect once it is settled. -/
def Call.reject (c : Call) (r : Rejection) : Call :=
  match c.promise with
  | .pending => { c with promise := .rejected r }
  | _ => c

/-- An assignment to the stats record of request number i. -/
def Call.setStats (c : Call) (i : Nat) (s : Stats) : Call :=
  { c with requests := c.requests.set i s }

/-- The test under which post throws: `timeout != null` and
`Number.isNaN(+timeout)`. -/
def timeoutInvalid (d : Collaborators) (timeout : TimeoutValue) : Bool :=
  !timeout.isNullish && (timeout.toNumber d).isNaN

/-- The message of the error that post throws on a timeout that is not a
number. -/
def timeoutMessage (timeout : TimeoutValue) : String :=
  "timeout param is not a number [" ++ timeout.toString ++ "]"

/-- The function post: the state after it, and the error it threw if it did. -/
def post (d : Collaborators) (x : Closure) (c : Call) : Call × Option JSError :=
  let stats := buildResponse x.endpoint x.inputData x.headers x.compress x.start c.attempt
  let c1 := { c with requests := c.requests ++ [stats],
                     trace := c.trace ++ [.request c.attempt (requestOptions x)] }
  if timeoutInvalid d x.timeout then
    (c1, some ⟨timeoutMessage x.timeout⟩)
  else
    let c2 := if !x.timeout.isNullish then
        { c1 with trace := c1.trace ++ [.socketTimeout c.attempt x.timeout] }
      else c1
    let c3 := if writeMethods.contains (d.toUpperCase x.method) then
        { c2 with trace := c2.trace ++ [.write c.attempt x.data] }
      else c2
    ({ c3 with trace := c3.trace ++ [.end_ c.attempt] }, none)

/-- The message that tryAgain gives the error once the attempts are used up. -/
def exhaustedMessage (attempt : Nat) (message : String) : String :=
  "tryAgain has exceeded max delivery attempts (" ++ toString attempt ++ "):" ++ message

/-- The function tryAgain. Its stats argument is the record of request number
i. -/
def tryAgain (x : Closure) (c : Call) (error : Failure) (i : Nat) (stats : Stats) : Call :=
  if (c.attempt : Int) < x.maxRetry then
    { c with timers := c.timers + 1, trace := c.trace ++ [.setTimeout 500] }
  else
    let err : JSError := match error with
      | .error e => e
      | .text s => ⟨s⟩
    let err : JSError := { err with message := exhaustedMessage c.attempt err.message }
    let stats := { stats with err := some err }
    (c.setStats i stats).reject (.stats stats)

/-- The message of the error attached to a response with a status between 300
and 399. -/
def softMessage (responseText : String) (statusCode : Nat) (data : Data) : String :=
  "\x7b\"Response\": " ++ responseText ++ ", \"statusCode\": " ++ toString statusCode ++
    ", \"data\": " ++ data ++ "\x7d"

/-- The response callback of request number i, called at time now with the
status code, the headers and the stream events of the response. -/
def onResponse (d : Collaborators) (x : Closure) (c : Call) (i : Nat) (now : Nat)
    (statusCode : Nat) (headers : HeaderMap) (body : List StreamEvent) : Call :=
  match c.requests[i]? with
  | none => c
  | some stats =>
    let stats := { stats with end_ := some now, code := some statusCode,
                              responseHeaders := some headers }
    match readStreamPromise body with
    | .pending => c.setStats i stats
    | .rejected e => { c.setStats i stats with unhandled := c.unhandled ++ [e] }
    | .resolved buffer =>
      let stats := { stats with responseBuffer := some buffer }
      let c := c.setStats i stats
      if statusCode = 400 then
        c.reject (.error ⟨"400 Status"⟩ (some stats))
      else if statusCode > 400 then
        tryAgain x c (.text ("Status Code: " ++ toString statusCode)) i stats
      else if statusCode > 299 then
        let stats := { stats with
          err := some ⟨softMessage (d.responseText stats) statusCode x.data⟩ }
        (c.setStats i stats).resolve stats
      else
        c.resolve stats

/-- The error handler of request number i, called at time now. -/
def onError (x : Closure) (c : Call) (i : Nat) (now : Nat) (error : JSError) : Call :=
  match c.requests[i]? with
  | none => c
  | some stats =>
    let stats := { stats with err := some error, code := some 599, end_ := some now }
    tryAgain x (c.setStats i stats) (.error error) i stats

/-- The callback of the retry timer: `post(++attempt)`. -/
def onTimer (d : Collaborators) (x : Closure) (c : Call) : Call :=
  if c.timers = 0 then c
  else
    let c := { c with timers := c.timers - 1, attempt := c.attempt + 1 }
    match post d x c with
    | (c, none) => c
    | (c, some e) => { c with unhandled := c.unhandled ++ [e] }

/-- The listener that the post of attempt n registers for the timeout event of
the socket of its request: `request.abort()`, on that request. -/
def onSocketTimeout (c : Call) (n : Nat) : Call :=
  { c with trace := c.trace ++ [.abort n] }

/-- The timeout of the socket of attempt n expires before a response has arrived:
the listener aborts the request, upon which the runtime makes the aborted request
emit the error `hangUp`; the error handler of that request, the one at index
`n - 1`, receives it at time now. -/
def expire (x : Closure) (c : Call) (n : Nat) (now : Nat) (hangUp : JSError) : Call :=
  onError x (onSocketTimeout c n) (n - 1) now hangUp

/-- The executor of promiseDataTo, run at time now: the state of the call when
promiseDataTo returns. An exception thrown inside the executor rejects the
promise. -/
def promiseDataTo (d : Collaborators) (cfg : Config) (now : Nat) (_endpoint : EndpointInput)
    (inputData : InputData) (options : DispatchOptions) : Call :=
  match getEndpoint d _endpoint with
  | .error e => Call.new.reject (.error e none)
  | .ok endpoint =>
    let x := scope d cfg now endpoint inputData options
    let c := { Call.new with trace := [.encode, .buildHeaders] }
    if cfg.SIMULATE.truthy then
      Call.resolve { c with trace := c.trace ++ [.simulate] }
        (d.simulatedResponse endpoint inputData x.headers x.compress x.start)
    else
      match post d x c with
      | (c, none) => c
      | (c, some e) => c.reject (.error e none)

/-! ## Running a call -/

/-- What one attempt ends in: the response callback is called, or the request
emits an error. Each carries the time at which it happens. -/
inductive Outcome where
  | response (now : Nat) (statusCode : Nat) (headers : HeaderMap) (body : List StreamEvent)
  | error (now : Nat) (e : JSError)
  deriving DecidableEq, Repr

/-- The outcome delivered to the callbacks of request number i. -/
def handle (d : Collaborators) (x : Closure) (c : Call) (i : Nat) : Outcome → Call
  | .response now statusCode headers body => onResponse d x c i now statusCode headers body
  | .error now e => onError x c i now e

/-- A call in which every attempt has exactly one outcome: each outcome goes to
the request created last, and a retry timer that it armed then fires. The run
stops when no timer is armed, since no further request exists. -/
def run (d : Collaborators) (x : Closure) : Call → List Outcome → Call
  | c, [] => c
  | c, o :: rest =>
    let c1 := handle d x c (c.requests.length - 1) o
    if c1.timers = 0 then c1 else run d x (onTimer d x c1) rest

/-- A promiseDataTo call followed by the outcomes of its attempts. -/
def dispatch (d : Collaborators) (cfg : Config) (now : Nat) (_endpoint : EndpointInput)
    (inputData : InputData) (options : DispatchOptions) (outcomes : List Outcome) : Call :=
  match getEndpoint d _endpoint with
  | .error _ => promiseDataTo d cfg now _endpoint inputData options
  | .ok endpoint =>
    run d (scope d cfg now endpoint inputData options)
      (promiseDataTo d cfg now _endpoint inputData options) outcomes

/-! ## Vocabulary of the statements -/

/-- The record that post allocates for attempt n. -/
def Closure.fresh (x : Closure) (n : Nat) : Stats :=
  buildResponse x.endpoint x.inputData x.headers x.compress x.start n

/-- The effects of a post that does not throw, for attempt n. -/
def sendEffects (d : Collaborators) (x : Closure) (n : Nat) : List Effect :=
  [.request n (requestOptions x)] ++
    (if !x.timeout.isNullish then [.socketTimeout n x.timeout] else []) ++
    (if writeMethods.contains (d.toUpperCase x.method) then [.write n x.data] else []) ++
    [.end_ n]

/-- The response stream of the outcome ends without an error, so that the
response callback gets to classify the status code. -/
def drained (body : List StreamEvent) : Bool :=
  match readStreamPromise body with
  | .resolved _ => true
  | _ => false

/-- A failure that goes to tryAgain: a drained response with a status above 400,
or a transport error. -/
def Outcome.retryable : Outcome → Bool
  | .response _ statusCode _ body => decide (statusCode > 400) && drained body
  | .error _ _ => true

/-- A drained response with a status above 400. -/
def Outcome.serverError : Outcome → Bool
  | .response _ statusCode _ body => decide (statusCode > 400) && drained body
  | .error _ _ => false

/-- The text of the underlying error that tryAgain receives for a retryable
outcome. -/
def Outcome.failureText : Outcome → String
  | .response _ statusCode _ _ => "Status Code: " ++ toString statusCode
  | .error _ e => e.message

/-- The record of an attempt after the outcome, before tryAgain touches it. -/
def Outcome.record (s : Stats) : Outcome → Stats
  | .response now statusCode headers body =>
    { s with end_ := some now, code := some statusCode, responseHeaders := some headers,
             responseBuffer := match readStreamPromise body with
               | .resolved buffer => some buffer
               | _ => none }
  | .error now e => { s with err := some e, code := some 599, end_ := some now }

/-- The time at which the outcome reaches its callback. -/
def Outcome.time : Outcome → Nat
  | .response now _ _ _ => now
  | .error now _ => now

/-- The first argument that the outcome makes tryAgain receive. -/
def Outcome.failure : Outcome → Failure
  | .response _ statusCode _ _ => .text ("Status Code: " ++ toString statusCode)
  | .error _ e => .error e

/-- The state of a call right after a first post that did not throw. -/
def Closure.started (d : Collaborators) (x : Closure) : Call :=
  { attempt := 1, promise := .pending, requests := [x.fresh 1], timers := 0,
    trace := [.encode, .buildHeaders] ++ sendEffects d x 1, unhandled := [] }

/-- The state after attempt number `c.attempt` of the call c ended in the
retryable outcome o and the retry timer fired. -/
def Call.retried (d : Collaborators) (x : Closure) (c : Call) (done : List Stats)
    (o : Outcome) : Call :=
  { c with attempt := c.attempt + 1,
           requests := done ++ [o.record (x.fresh c.attempt)] ++ [x.fresh (c.attempt + 1)],
           trace := c.trace ++ [.setTimeout 500] ++ sendEffects d x (c.attempt + 1) }

/-- The record that tryAgain rejects with once the attempts are used up. -/
def Outcome.exhausted (s : Stats) (attempt : Nat) (o : Outcome) : Stats :=
  { o.record s with err := some ⟨exhaustedMessage attempt o.failureText⟩ }

/-- The call reaches the attempt loop with the closure x: the endpoint argument
resolves, the simulate flag is off and the timeout passes the check of post. -/
def Starts (d : Collaborators) (cfg : Config) (now : Nat) (_endpoint : EndpointInput)
    (inputData : InputData) (options : DispatchOptions) (x : Closure) : Prop :=
  ∃ endpoint, getEndpoint d _endpoint = .ok endpoint ∧
    x = scope d cfg now endpoint inputData options ∧
    cfg.SIMULATE.truthy = false ∧ timeoutInvalid d x.timeout = false

/-- The state in which attempt number `done.length + 1` is in flight: the
promise is pending, no timer is armed, and the records of the earlier attempts
are `done`. -/
structure InFlight (x : Closure) (c : Call) (done : List Stats) : Prop where
  promise : c.promise = .pending
  timers : c.timers = 0
  requests : c.requests = done ++ [x.fresh c.attempt]
  attempt : c.attempt = done.length + 1
  numbered : done.map Stats.attempt = List.range' 1 done.length

/-! ## The retry policy, seen without the contents of the records -/

/-- The kind of state a promise is in. -/
inductive Kind where
  | pending
  | resolved
  | rejectedWithError
  | rejectedWithStats
  deriving DecidableEq, Repr

/-- The kind of the promise of a call. -/
def Call.kind (c : Call) : Kind :=
  match c.promise with
  | .pending => .pending
  | .resolved _ => .resolved
  | .rejected (.error _ _) => .rejectedWithError
  | .rejected (.stats _) => .rejectedWithStats

/-- What a call shows of the retry policy: its attempt counter, the kind of its
promise, the attempt numbers of the requests created, the armed timers, the
effects and the unhandled errors. The contents of the records and of the settled
value are left out. -/
structure Shape where
  attempt : Nat
  kind : Kind
  attempts : List Nat
  timers : Nat
  trace : List Effect
  unhandled : List JSError
  deriving DecidableEq, Repr

/-- The shape of a call. -/
def Call.shape (c : Call) : Shape :=
  { attempt := c.attempt, kind := c.kind, attempts := c.requests.map Stats.attempt,
    timers := c.timers, trace := c.trace, unhandled := c.unhandled }

/-- Two outcomes are alike when they are equal or both are retryable failures,
so that one list of outcomes comes from another by exchanging responses above
400 and transport errors. -/
def Outcome.alike (o1 o2 : Outcome) : Prop :=
  o1 = o2 ∨ (o1.retryable = true ∧ o2.retryable = true)

/-- How the response callback or the error handler disposes of an outcome. -/
inductive Verdict where
  | hangs
  | streamError (e : JSError)
  | hard
  | retry
  | soft
  | success
  deriving DecidableEq, Repr

/-- The branch of the callbacks that an outcome takes. -/
def Outcome.verdict : Outcome → Verdict
  | .error _ _ => .retry
  | .response _ statusCode _ body =>
    match readStreamPromise body with
    | .pending => .hangs
    | .rejected e => .streamError e
    | .resolved _ =>
      if statusCode = 400 then .hard
      else if statusCode > 400 then .retry
      else if statusCode > 299 then .soft
      else .success

/-- Settling the promise, on shapes. -/
def Shape.settle (sh : Shape) (k : Kind) : Shape :=
  match sh.kind with
  | .pending => { sh with kind := k }
  | _ => sh

/-- The function tryAgain, on shapes. -/
def Shape.tryAgain (x : Closure) (sh : Shape) : Shape :=
  if (sh.attempt : Int) < x.maxRetry then
    { sh with timers := sh.timers + 1, trace := sh.trace ++ [.setTimeout 500] }
  else
    sh.settle .rejectedWithStats

/-- The callbacks of request number i, on shapes. -/
def Shape.handle (x : Closure) (sh : Shape) (i : Nat) (v : Verdict) : Shape :=
  if i < sh.attempts.length then
    match v with
    | .hangs => sh
    | .streamError e => { sh with unhandled := sh.unhandled ++ [e] }
    | .hard => sh.settle .rejectedWithError
    | .retry => sh.tryAgain x
    | .soft => sh.settle .resolved
    | .success => sh.settle .resolved
  else sh

/-- The callback of the retry timer, on shapes. -/
def Shape.onTimer (d : Collaborators) (x : Closure) (sh : Shape) : Shape :=
  if sh.timers = 0 then sh
  else if timeoutInvalid d x.timeout then
    { sh with timers := sh.timers - 1, attempt := sh.attempt + 1,
              attempts := sh.attempts ++ [sh.attempt + 1],
              trace := sh.trace ++ [.request (sh.attempt + 1) (requestOptions x)],
              unhandled := sh.unhandled ++ [⟨timeoutMessage x.timeout⟩] }
  else
    { sh with timers := sh.timers - 1, attempt := sh.attempt + 1,
              attempts := sh.attempts ++ [sh.attempt + 1],
              trace := sh.trace ++ sendEffects d x (sh.attempt + 1) }

/-- A run, on shapes. -/
def Shape.run (d : Collaborators) (x : Closure) : Shape → List Verdict → Shape
  | sh, [] => sh
  | sh, v :: rest =>
    let sh1 := sh.handle x (sh.attempts.length - 1) v
    if sh1.timers = 0 then sh1 else Shape.run d x (sh1.onTimer d x) rest

/-- The effects that put a request on the wire: writing the body and ending
the request. -/
def Effect.sends : Effect → Bool
  | .write _ _ => true
  | .end_ _ => true
  | _ => false

/-- The state of a call whose first post threw on the timeout. -/
def Closure.refused (x : Closure) : Call :=
  { attempt := 1, promise := .rejected (.error ⟨timeoutMessage x.timeout⟩ none),
    requests := [x.fresh 1], timers := 0,
    trace := [.encode, .buildHeaders, .request 1 (requestOptions x)], unhandled := [] }

/-- The effect is a write of a request body. -/
def Effect.isWrite : Effect → Bool
  | .write _ _ => true
  | _ => false

/-! ## Sequential attempts -/

/-- The record shows that its attempt has terminated: a callback has set the end
time, and the response body has been drained or an error has been recorded. -/
def Stats.terminated (s : Stats) : Bool :=
  s.end_.isSome && (s.responseBuffer.isSome || s.err.isSome)

/-- The records of the requests in flight: those that no callback has touched. -/
def Call.awaiting (c : Call) : List Stats :=
  c.requests.filter (fun s => s.end_.isNone)

/-- The states that a call started in c0 passes through when the events of an
attempt reach its callbacks only before that attempt has armed a retry: an
outcome goes to the request created last while no timer is armed, and an armed
timer fires at any time. -/
inductive Reachable (d : Collaborators) (x : Closure) (c0 : Call) : Call → Prop where
  | start : Reachable d x c0 c0
  | deliver {c : Call} (o : Outcome) :
      Reachable d x c0 c → c.timers = 0 →
      Reachable d x c0 (handle d x c (c.requests.length - 1) o)
  | fire {c : Call} : Reachable d x c0 c → Reachable d x c0 (onTimer d x c)

/-- The state of a call with attempts made one after the other: at most one timer
is armed; every attempt but the last has terminated, and the last one too when a
timer is armed; every delay is 500; and every request after the first has used
up one armed timer. -/
structure Sequential (c : Call) : Prop where
  timers : c.timers ≤ 1
  earlier : ∀ s ∈ c.requests.dropLast, s.terminated = true
  pending : 0 < c.timers → ∀ s ∈ c.requests, s.terminated = true
  delay : ∀ ms : Nat, Effect.setTimeout ms ∈ c.trace → ms = 500
  issued : c.requests.length + c.timers ≤ 1 + c.trace.count (.setTimeout 500)

/-! ## Examples -/

/-- An endpoint with three attempts and no timeout. -/
def Endpoint.sample : Endpoint :=
  { host := "localhost", port := 8080, path := "/path", href := "http://localhost:8080/path",
    query := none, method := none, maxRetry := some 3, timeout := .undefined,
    compress := none, headers := [("content-type", "application/json")] }

/-- Upper-casing of the letters a to z. -/
def asciiUpper (s : String) : String :=
  String.mk (s.data.map Char.toUpper)

/-- Collaborators that pass their input through. -/
def Collaborators.sample : Collaborators :=
  { newEndpoint := fun _ => Endpoint.sample,
    headersToObject := id,
    getProperDataFromInputData := fun inputData _ => inputData,
    setHeaders := fun headers _ _ => headers,
    simulatedResponse := fun endpoint inputData headers compress start =>
      { buildResponse endpoint inputData headers compress start 1 with code := some 222 },
    responseText := fun _ => "body",
    toUpperCase := asciiUpper,
    stringToNumber := fun s =>
      if s.data.all Char.isDigit then
        .num (s.data.foldl (fun n ch => 10 * n + ((ch.toNat : Int) - 48)) 0)
      else .NaN }

/-- The configuration of a process without environment settings. -/
def Config.sample : Config :=
  { SIMULATE := .NaN, MAX_RETRY_ATTEMPTS := 3, REQUEST_TIMEOUT_MS := .undefined }

/-- A drained response with the given status at the given time. -/
def Outcome.sample (now statusCode : Nat) : Outcome :=
  .response now statusCode [] [.data [104, 105], .data [33], .end_]

/-! ## Lemmas on the attempt loop -/

theorem set_concat_length {α : Type} (l : List α) (a b : α) :
    (l ++ [a]).set l.length b = l ++ [b] := by
  induction l with
  | nil => rfl
  | cons h t ih => simp [List.set, ih]

theorem post_of_valid (d : Collaborators) (x : Closure) (c : Call)
    (h : timeoutInvalid d x.timeout = false) :
    post d x c = ({ c with requests := c.requests ++ [x.fresh c.attempt],
                           trace := c.trace ++ sendEffects d x c.attempt }, none) := by
  unfold post
  simp only [h, Bool.false_eq_true, ↓reduceIte, sendEffects, Closure.fresh]
  split_ifs <;> simp

theorem post_of_invalid (d : Collaborators) (x : Closure) (c : Call)
    (h : timeoutInvalid d x.timeout = true) :
    post d x c = ({ c with requests := c.requests ++ [x.fresh c.attempt],
                           trace := c.trace ++ [.request c.attempt (requestOptions x)] },
                  some ⟨timeoutMessage x.timeout⟩) := by
  unfold post
  simp only [h, ↓reduceIte, Closure.fresh]

theorem dispatch_of_starts {d : Collaborators} {cfg : Config} {now : Nat}
    {_endpoint : EndpointInput} {inputData : InputData} {options : DispatchOptions}
    {x : Closure} (h : Starts d cfg now _endpoint inputData options x)
    (outcomes : List Outcome) :
    dispatch d cfg now _endpoint inputData options outcomes = run d x (x.started d) outcomes := by
  obtain ⟨endpoint, hE, hx, hS, hT⟩ := h
  subst hx
  unfold dispatch promiseDataTo
  simp only [hE, hS, Bool.false_eq_true, ↓reduceIte]
  rw [post_of_valid d _ _ hT]
  rfl

theorem inFlight_started (d : Collaborators) (x : Closure) : InFlight x (x.started d) [] :=
  ⟨rfl, rfl, rfl, rfl, rfl⟩

theorem drained_iff (body : List StreamEvent) :
    drained body = true ↔ ∃ buffer, readStreamPromise body = .resolved buffer := by
  unfold drained
  cases h : readStreamPromise body <;> simp

theorem tryAgain_of_lt (x : Closure) (c : Call) (f : Failure) (i : Nat) (s : Stats)
    (h : (c.attempt : Int) < x.maxRetry) :
    tryAgain x c f i s =
      { c with timers := c.timers + 1, trace := c.trace ++ [.setTimeout 500] } := by
  unfold tryAgain
  simp [h]

theorem handle_retryable {d : Collaborators} {x : Closure} {c : Call} {done : List Stats}
    (hin : InFlight x c done) {o : Outcome} (ho : o.retryable = true) :
    handle d x c (c.requests.length - 1) o =
      tryAgain x { c with requests := done ++ [o.record (x.fresh c.attempt)] } o.failure
        done.length (o.record (x.fresh c.attempt)) := by
  have hlen : c.requests.length - 1 = done.length := by simp [hin.requests]
  have hget : c.requests[done.length]? = some (x.fresh c.attempt) := by simp [hin.requests]
  cases o with
  | error now e =>
    simp only [handle, onError]
    rw [hlen, hget]
    simp only [Call.setStats, hin.requests, set_concat_length, Outcome.record, Outcome.failure]
  | response now statusCode headers body =>
    simp only [Outcome.retryable, Bool.and_eq_true, decide_eq_true_eq, drained_iff] at ho
    obtain ⟨hcode, buffer, hbody⟩ := ho
    have h400 : statusCode ≠ 400 := by omega
    simp only [handle, onResponse]
    rw [hlen, hget]
    simp only [hbody, Call.setStats, hin.requests, set_concat_length, Outcome.record,
      Outcome.failure, h400, hcode, ↓reduceIte]

theorem run_retry {d : Collaborators} {x : Closure} {c : Call} {done : List Stats}
    (hin : InFlight x c done) (hv : timeoutInvalid d x.timeout = false) {o : Outcome}
    (ho : o.retryable = true) (hb : (c.attempt : Int) < x.maxRetry) (rest : List Outcome) :
    run d x c (o :: rest) = run d x (c.retried d x done o) rest := by
  rw [run, handle_retryable hin ho,
    tryAgain_of_lt x { c with requests := done ++ [o.record (x.fresh c.attempt)] } _ _ _ hb]
  simp only [hin.timers, zero_add, one_ne_zero, ↓reduceIte, onTimer, post_of_valid d x _ hv,
    Nat.add_sub_cancel, Call.retried, List.append_assoc]

theorem inFlight_retried {x : Closure} {c : Call} {done : List Stats} (hin : InFlight x c done)
    (d : Collaborators) (o : Outcome) :
    InFlight x (c.retried d x done o) (done ++ [o.record (x.fresh c.attempt)]) := by
  have hrec : (o.record (x.fresh c.attempt)).attempt = 1 + done.length := by
    cases o <;> simp [Outcome.record, Closure.fresh, buildResponse, hin.attempt, Nat.add_comm]
  refine ⟨hin.promise, hin.timers, rfl, ?_, ?_⟩
  · simp [Call.retried, hin.attempt]
  · simp [List.range'_concat, hin.numbered, hrec]

theorem run_retries {d : Collaborators} {x : Closure}
    (hv : timeoutInvalid d x.timeout = false) (pre : List Outcome) :
    ∀ {c : Call} {done : List Stats}, InFlight x c done →
      (∀ o ∈ pre, o.retryable = true) →
      (∀ k : Nat, k < pre.length → ((c.attempt + k : Nat) : Int) < x.maxRetry) →
      ∀ rest : List Outcome, ∃ c1 done1, run d x c (pre ++ rest) = run d x c1 rest ∧
        InFlight x c1 done1 ∧ c1.attempt = c.attempt + pre.length := by
  induction pre with
  | nil =>
    intro c done hin _ _ rest
    exact ⟨c, done, rfl, hin, rfl⟩
  | cons o pre ih =>
    intro c done hin hpre hb rest
    have ho : o.retryable = true := hpre o (List.mem_cons_self _ _)
    have h0 : (c.attempt : Int) < x.maxRetry := by simpa using hb 0 (by simp)
    have hstep := run_retry hin hv ho h0 (pre ++ rest)
    have hin1 := inFlight_retried hin d o
    have hatt : (c.retried d x done o).attempt = c.attempt + 1 := rfl
    obtain ⟨c1, done1, hrun, hin2, hatt2⟩ := ih hin1
      (fun o1 h1 => hpre o1 (List.mem_cons_of_mem _ h1))
      (fun k hk => by
        have := hb (k + 1) (by simpa using hk)
        rw [hatt]
        have e : c.attempt + 1 + k = c.attempt + (k + 1) := by omega
        rw [e]
        exact this) rest
    refine ⟨c1, done1, ?_, hin2, ?_⟩
    · rw [List.cons_append, hstep, hrun]
    · rw [hatt2, hatt, List.length_cons]
      omega

theorem handle_drained {d : Collaborators} {x : Closure} {c : Call} {done : List Stats}
    (hin : InFlight x c done) (now statusCode : Nat) (headers : HeaderMap)
    {body : List StreamEvent} {buffer : Bytes}
    (hbody : readStreamPromise body = .resolved buffer) :
    handle d x c (c.requests.length - 1) (.response now statusCode headers body) =
      (let stats := (Outcome.response now statusCode headers body).record (x.fresh c.attempt)
       let c1 := { c with requests := done ++ [stats] }
       if statusCode = 400 then
         { c1 with promise := .rejected (.error ⟨"400 Status"⟩ (some stats)) }
       else if statusCode > 400 then
         tryAgain x c1 (.text ("Status Code: " ++ toString statusCode)) done.length stats
       else if statusCode > 299 then
         { c1 with
           requests := done ++ [{ stats with
             err := some ⟨softMessage (d.responseText stats) statusCode x.data⟩ }]
           promise := .resolved { stats with
             err := some ⟨softMessage (d.responseText stats) statusCode x.data⟩ } }
       else
         { c1 with promise := .resolved stats }) := by
  have hlen : c.requests.length - 1 = done.length := by simp [hin.requests]
  have hget : c.requests[done.length]? = some (x.fresh c.attempt) := by simp [hin.requests]
  simp only [handle, onResponse]
  rw [hlen, hget]
  simp only [hbody, Call.setStats, hin.requests, set_concat_length, Outcome.record,
    Call.reject, Call.resolve, hin.promise]

theorem tryAgain_of_not_lt (x : Closure) (c : Call) (o : Outcome) (i : Nat) (s : Stats)
    (h : ¬ (c.attempt : Int) < x.maxRetry) :
    tryAgain x c o.failure i (o.record s) =
      (c.setStats i (o.exhausted s c.attempt)).reject (.stats (o.exhausted s c.attempt)) := by
  unfold tryAgain
  cases o <;> simp [h, Outcome.failure, Outcome.exhausted, Outcome.failureText]

theorem run_exhausted {d : Collaborators} {x : Closure} {c : Call} {done : List Stats}
    (hin : InFlight x c done) {o : Outcome} (ho : o.retryable = true)
    (hb : ¬ (c.attempt : Int) < x.maxRetry) (rest : List Outcome) :
    run d x c (o :: rest) =
      { c with requests := done ++ [o.exhausted (x.fresh c.attempt) c.attempt],
               promise := .rejected (.stats (o.exhausted (x.fresh c.attempt) c.attempt)) } := by
  rw [run, handle_retryable hin ho,
    tryAgain_of_not_lt x { c with requests := done ++ [o.record (x.fresh c.attempt)] } o _ _ hb]
  simp [Call.setStats, Call.reject, hin.promise, hin.timers, set_concat_length]

theorem dispatch_reaches {d : Collaborators} {cfg : Config} {now : Nat}
    {_endpoint : EndpointInput} {inputData : InputData} {options : DispatchOptions}
    {x : Closure} (h : Starts d cfg now _endpoint inputData options x)
    (pre : List Outcome) (hpre : ∀ o ∈ pre, o.retryable = true)
    (hbudget : pre ≠ [] → (pre.length : Int) < x.maxRetry) (rest : List Outcome) :
    ∃ c1 done1, dispatch d cfg now _endpoint inputData options (pre ++ rest) = run d x c1 rest ∧
      InFlight x c1 done1 ∧ c1.attempt = pre.length + 1 ∧ done1.length = pre.length := by
  have hv : timeoutInvalid d x.timeout = false := by
    obtain ⟨_, _, _, _, hT⟩ := h
    exact hT
  have hb : ∀ k : Nat, k < pre.length →
      ((((x.started d).attempt + k : Nat)) : Int) < x.maxRetry := by
    intro k hk
    have hne : pre ≠ [] := by
      intro e
      simp [e] at hk
    have := hbudget hne
    have e : (x.started d).attempt = 1 := rfl
    rw [e]
    push_cast
    omega
  obtain ⟨c1, done1, hrun, hin, hatt⟩ := run_retries hv pre (inFlight_started d x) hpre hb rest
  refine ⟨c1, done1, ?_, hin, ?_, ?_⟩
  · rw [dispatch_of_starts h, hrun]
  · rw [hatt]
    show 1 + pre.length = pre.length + 1
    omega
  · have h1 := hin.attempt
    rw [hatt] at h1
    have e : (x.started d).attempt = 1 := rfl
    rw [e] at h1
    omega

/-! ## The claims -/

/-- C1: a drained response with status 400 on attempt n, reached after n - 1
retried failures, rejects the promise with the error "400 Status" that carries the
record of attempt n; exactly n requests have been created, whatever maxRetry is
and whatever outcomes would follow, and no retry timer is armed. With no earlier
failure this is a rejection after one attempt for every maxRetry. -/
theorem status_400_rejects_without_retry (d : Collaborators) (cfg : Config) (now : Nat)
    (_endpoint : EndpointInput) (inputData : InputData) (options : DispatchOptions)
    (x : Closure) (h : Starts d cfg now _endpoint inputData options x)
    (pre rest : List Outcome) (t : Nat) (headers : HeaderMap) (body : List StreamEvent)
    (buffer : Bytes) (hpre : ∀ o ∈ pre, o.retryable = true)
    (hbudget : pre ≠ [] → (pre.length : Int) < x.maxRetry)
    (hbody : readStreamPromise body = .resolved buffer) :
    (dispatch d cfg now _endpoint inputData options
        (pre ++ .response t 400 headers body :: rest)).promise =
      .rejected (.error ⟨"400 Status"⟩ (some
        { x.fresh (pre.length + 1) with
          end_ := some t, code := some 400, responseHeaders := some headers,
          responseBuffer := some buffer })) ∧
    (dispatch d cfg now _endpoint inputData options
        (pre ++ .response t 400 headers body :: rest)).requests.length = pre.length + 1 ∧
    (dispatch d cfg now _endpoint inputData options
        (pre ++ .response t 400 headers body :: rest)).attempt = pre.length + 1 ∧
    (dispatch d cfg now _endpoint inputData options
        (pre ++ .response t 400 headers body :: rest)).timers = 0 := by
  obtain ⟨c1, done1, hrun, hin, hatt, hlen⟩ :=
    dispatch_reaches h pre hpre hbudget (.response t 400 headers body :: rest)
  rw [hrun, run, handle_drained hin t 400 headers hbody]
  simp [Outcome.record, hbody, hin.timers, hatt, hlen]

/-- Instance of C1: with three attempts allowed, a 500 and then a 400. -/
theorem status_400_rejects_without_retry_witness :
    (dispatch Collaborators.sample Config.sample 0 (.endpoint Endpoint.sample) "x" ⟨none, none⟩
        ([Outcome.sample 1 500] ++ .response 2 400 [] [.data [7], .end_] ::
          [Outcome.sample 3 200])).promise =
      .rejected (.error ⟨"400 Status"⟩ (some
        { (scope Collaborators.sample Config.sample 0 Endpoint.sample "x" ⟨none, none⟩).fresh 2
          with end_ := some 2, code := some 400, responseHeaders := some [],
               responseBuffer := some [7] })) ∧
    (dispatch Collaborators.sample Config.sample 0 (.endpoint Endpoint.sample) "x" ⟨none, none⟩
        ([Outcome.sample 1 500] ++ .response 2 400 [] [.data [7], .end_] ::
          [Outcome.sample 3 200])).requests.length = 2 :=
  have h := status_400_rejects_without_retry Collaborators.sample Config.sample 0
    (.endpoint Endpoint.sample) "x" ⟨none, none⟩ _ ⟨Endpoint.sample, rfl, rfl, rfl, rfl⟩
    [Outcome.sample 1 500] [Outcome.sample 3 200] 2 [] [.data [7], .end_] [7]
    (by decide) (by decide) rfl
  ⟨h.1, h.2.1⟩

/-- C2: with maxRetry = n at least 1 and drained responses that all have a status
above 400, the call creates exactly n requests, numbered 1 to n, and then rejects
with the record of attempt n, whose error message holds the attempt count n and
the text "Status Code: " followed by the last status. -/
theorem server_errors_exhaust_after_maxRetry (d : Collaborators) (cfg : Config) (now : Nat)
    (_endpoint : EndpointInput) (inputData : InputData) (options : DispatchOptions)
    (x : Closure) (h : Starts d cfg now _endpoint inputData options x)
    (pre rest : List Outcome) (t statusCode : Nat) (headers : HeaderMap)
    (body : List StreamEvent) (buffer : Bytes)
    (hpre : ∀ o ∈ pre, o.serverError = true) (hcode : statusCode > 400)
    (hbody : readStreamPromise body = .resolved buffer)
    (hmax : x.maxRetry = (pre.length : Int) + 1) :
    (dispatch d cfg now _endpoint inputData options
        (pre ++ .response t statusCode headers body :: rest)).promise =
      .rejected (.stats
        { x.fresh (pre.length + 1) with
          end_ := some t, code := some statusCode, responseHeaders := some headers,
          responseBuffer := some buffer,
          err := some ⟨"tryAgain has exceeded max delivery attempts (" ++
            toString (pre.length + 1) ++ "):" ++ ("Status Code: " ++ toString statusCode)⟩ }) ∧
    (dispatch d cfg now _endpoint inputData options
        (pre ++ .response t statusCode headers body :: rest)).requests.map Stats.attempt =
      List.range' 1 (pre.length + 1) ∧
    (dispatch d cfg now _endpoint inputData options
        (pre ++ .response t statusCode headers body :: rest)).requests.length = pre.length + 1 ∧
    (dispatch d cfg now _endpoint inputData options
        (pre ++ .response t statusCode headers body :: rest)).timers = 0 := by
  have hretry : ∀ o ∈ pre, o.retryable = true := by
    intro o ho
    have := hpre o ho
    cases o <;> simp_all [Outcome.serverError, Outcome.retryable]
  obtain ⟨c1, done1, hrun, hin, hatt, hlen⟩ :=
    dispatch_reaches h pre hretry (fun _ => by rw [hmax]; omega)
      (.response t statusCode headers body :: rest)
  have hlast : (Outcome.response t statusCode headers body).retryable = true := by
    simp [Outcome.retryable, hcode, drained, hbody]
  have hb : ¬ (c1.attempt : Int) < x.maxRetry := by
    rw [hmax, hatt]
    push_cast
    omega
  rw [hrun, run_exhausted hin hlast hb]
  simp [Outcome.exhausted, Outcome.record, Outcome.failureText, exhaustedMessage, hbody, hatt,
    hlen, hin.timers, hin.numbered, List.range'_concat, Closure.fresh, buildResponse,
    Nat.add_comm]

/-- Instance of C2: three attempts allowed and the statuses 500, 503, 502. -/
theorem server_errors_exhaust_after_maxRetry_witness :
    ∃ s, (dispatch Collaborators.sample Config.sample 0 (.endpoint Endpoint.sample) "x"
        ⟨none, none⟩ ([Outcome.sample 1 500, Outcome.sample 2 503] ++
          .response 3 502 [] [.end_] :: [Outcome.sample 4 200])).promise = .rejected (.stats s) ∧
      s.err = some ⟨"tryAgain has exceeded max delivery attempts (3):Status Code: 502"⟩ ∧
      (dispatch Collaborators.sample Config.sample 0 (.endpoint Endpoint.sample) "x"
        ⟨none, none⟩ ([Outcome.sample 1 500, Outcome.sample 2 503] ++
          .response 3 502 [] [.end_] :: [Outcome.sample 4 200])).requests.map Stats.attempt =
        [1, 2, 3] :=
  have h := server_errors_exhaust_after_maxRetry Collaborators.sample Config.sample 0
    (.endpoint Endpoint.sample) "x" ⟨none, none⟩ _ ⟨Endpoint.sample, rfl, rfl, rfl, rfl⟩
    [Outcome.sample 1 500, Outcome.sample 2 503] [Outcome.sample 4 200] 3 502 [] [.end_] []
    (by decide) (by decide) rfl (by decide)
  ⟨_, h.1, by decide, h.2.1⟩

/-- C3: when attempt k, reached after k - 1 retried failures, gets a drained
response with a status of at most 299, the promise resolves with the record of
that attempt: its attempt field is k, it holds the status, the headers and the
body of this response, and it has no error. Exactly k requests were created. -/
theorem success_resolves_with_clean_record (d : Collaborators) (cfg : Config) (now : Nat)
    (_endpoint : EndpointInput) (inputData : InputData) (options : DispatchOptions)
    (x : Closure) (h : Starts d cfg now _endpoint inputData options x)
    (pre rest : List Outcome) (t statusCode : Nat) (headers : HeaderMap)
    (body : List StreamEvent) (buffer : Bytes)
    (hpre : ∀ o ∈ pre, o.retryable = true)
    (hbudget : pre ≠ [] → (pre.length : Int) < x.maxRetry)
    (hcode : statusCode ≤ 299) (hbody : readStreamPromise body = .resolved buffer) :
    ∃ s, (dispatch d cfg now _endpoint inputData options
        (pre ++ .response t statusCode headers body :: rest)).promise = .resolved s ∧
      s = { x.fresh (pre.length + 1) with
            end_ := some t, code := some statusCode, responseHeaders := some headers,
            responseBuffer := some buffer } ∧
      s.attempt = pre.length + 1 ∧ s.err = none ∧
      (dispatch d cfg now _endpoint inputData options
        (pre ++ .response t statusCode headers body :: rest)).requests.length = pre.length + 1 ∧
      (dispatch d cfg now _endpoint inputData options
        (pre ++ .response t statusCode headers body :: rest)).timers = 0 := by
  obtain ⟨c1, done1, hrun, hin, hatt, hlen⟩ :=
    dispatch_reaches h pre hpre hbudget (.response t statusCode headers body :: rest)
  have h400 : statusCode ≠ 400 := by omega
  have h401 : ¬ statusCode > 400 := by omega
  have h299 : ¬ statusCode > 299 := by omega
  rw [hrun, run, handle_drained hin t statusCode headers hbody]
  refine ⟨_, ?_, rfl, rfl, rfl, ?_, ?_⟩ <;>
    simp [Outcome.record, hbody, hin.timers, hatt, hlen, h400, h401, h299]

/-- Instance of C3: a transport error, then a 201 on the second attempt. -/
theorem success_resolves_with_clean_record_witness :
    ∃ s, (dispatch Collaborators.sample Config.sample 0 (.endpoint Endpoint.sample) "x"
        ⟨none, none⟩ ([Outcome.error 1 ⟨"ECONNRESET"⟩] ++
          .response 2 201 [] [.data [1], .end_] :: [])).promise = .resolved s ∧
      s.attempt = 2 ∧ s.err = none :=
  have ⟨s, h1, _, h3, h4, _⟩ := success_resolves_with_clean_record Collaborators.sample
    Config.sample 0 (.endpoint Endpoint.sample) "x" ⟨none, none⟩ _
    ⟨Endpoint.sample, rfl, rfl, rfl, rfl⟩
    [Outcome.error 1 ⟨"ECONNRESET"⟩] [] 2 201 [] [.data [1], .end_] [1]
    (by decide) (by decide) (by decide) rfl
  ⟨s, h1, h3, h4⟩

/-- C4: a drained response with a status c, 299 < c < 400, resolves the promise
with the record of the attempt, to which an error is attached whose message is
built from the response text, the status code and the sent data; no retry timer
is armed and no further request is created, whatever maxRetry is. -/
theorem soft_failure_resolves_with_error (d : Collaborators) (cfg : Config) (now : Nat)
    (_endpoint : EndpointInput) (inputData : InputData) (options : DispatchOptions)
    (x : Closure) (h : Starts d cfg now _endpoint inputData options x)
    (pre rest : List Outcome) (t statusCode : Nat) (headers : HeaderMap)
    (body : List StreamEvent) (buffer : Bytes)
    (hpre : ∀ o ∈ pre, o.retryable = true)
    (hbudget : pre ≠ [] → (pre.length : Int) < x.maxRetry)
    (hlow : 299 < statusCode) (hhigh : statusCode < 400)
    (hbody : readStreamPromise body = .resolved buffer) :
    ∃ r s, (dispatch d cfg now _endpoint inputData options
        (pre ++ .response t statusCode headers body :: rest)).promise = .resolved s ∧
      r = { x.fresh (pre.length + 1) with
            end_ := some t, code := some statusCode, responseHeaders := some headers,
            responseBuffer := some buffer } ∧
      s = { r with err := some ⟨"\x7b\"Response\": " ++ d.responseText r ++
              ", \"statusCode\": " ++ toString statusCode ++ ", \"data\": " ++ x.data ++
              "\x7d"⟩ } ∧
      (dispatch d cfg now _endpoint inputData options
        (pre ++ .response t statusCode headers body :: rest)).requests.length = pre.length + 1 ∧
      (dispatch d cfg now _endpoint inputData options
        (pre ++ .response t statusCode headers body :: rest)).timers = 0 := by
  obtain ⟨c1, done1, hrun, hin, hatt, hlen⟩ :=
    dispatch_reaches h pre hpre hbudget (.response t statusCode headers body :: rest)
  have h400 : statusCode ≠ 400 := by omega
  have h401 : ¬ statusCode > 400 := by omega
  have h299 : statusCode > 299 := hlow
  rw [hrun, run, handle_drained hin t statusCode headers hbody]
  refine ⟨_, _, ?_, rfl, rfl, ?_, ?_⟩ <;>
    simp [Outcome.record, hbody, hin.timers, hatt, hlen, h400, h401, h299, softMessage]

/-- Instance of C4: a 302 on the first attempt, with three attempts allowed. -/
theorem soft_failure_resolves_with_error_witness :
    ∃ s, (dispatch Collaborators.sample Config.sample 0 (.endpoint Endpoint.sample) "x"
        ⟨none, none⟩ ([] ++ .response 1 302 [] [.data [1], .end_] ::
          [Outcome.sample 2 200])).promise = .resolved s ∧
      s.err = some ⟨"\x7b\"Response\": body, \"statusCode\": 302, \"data\": x\x7d"⟩ ∧
      (dispatch Collaborators.sample Config.sample 0 (.endpoint Endpoint.sample) "x"
        ⟨none, none⟩ ([] ++ .response 1 302 [] [.data [1], .end_] ::
          [Outcome.sample 2 200])).requests.length = 1 :=
  have ⟨_, s, h1, _, h3, h4, _⟩ := soft_failure_resolves_with_error Collaborators.sample
    Config.sample 0 (.endpoint Endpoint.sample) "x" ⟨none, none⟩ _
    ⟨Endpoint.sample, rfl, rfl, rfl, rfl⟩
    [] [Outcome.sample 2 200] 1 302 [] [.data [1], .end_] [1]
    (by decide) (by decide) (by decide) (by decide) rfl
  ⟨s, h1, by rw [h3]; rfl, h4⟩

/-! ### The shape of a run -/

theorem shape_setStats {c : Call} {i : Nat} {s0 s : Stats} (hget : c.requests[i]? = some s0)
    (hs : s.attempt = s0.attempt) : (c.setStats i s).shape = c.shape := by
  obtain ⟨hi, h0⟩ := List.getElem?_eq_some_iff.mp hget
  have hmap : (c.requests.set i s).map Stats.attempt = c.requests.map Stats.attempt := by
    rw [List.map_set, hs, ← h0]
    apply List.ext_getElem
    · simp
    · intro n h1 h2
      by_cases hn : i = n
      · subst hn
        simp
      · simp [List.getElem_set, hn]
  simp [Call.shape, Call.setStats, hmap, Call.kind]

theorem getElem?_setStats {c : Call} {i : Nat} {s0 : Stats} (hget : c.requests[i]? = some s0)
    (s : Stats) : (c.setStats i s).requests[i]? = some s := by
  obtain ⟨hi, _⟩ := List.getElem?_eq_some_iff.mp hget
  simp [Call.setStats, hi]

theorem shape_reject_error (c : Call) (e : JSError) (s : Option Stats) :
    (c.reject (.error e s)).shape = c.shape.settle .rejectedWithError := by
  cases hp : c.promise <;> simp [Call.reject, Call.shape, Shape.settle, Call.kind, hp]
  rename_i r
  cases r <;> rfl

theorem shape_reject_stats (c : Call) (s : Stats) :
    (c.reject (.stats s)).shape = c.shape.settle .rejectedWithStats := by
  cases hp : c.promise <;> simp [Call.reject, Call.shape, Shape.settle, Call.kind, hp]
  rename_i r
  cases r <;> rfl

theorem shape_resolve (c : Call) (s : Stats) :
    (c.resolve s).shape = c.shape.settle .resolved := by
  cases hp : c.promise <;> simp [Call.resolve, Call.shape, Shape.settle, Call.kind, hp]
  rename_i r
  cases r <;> rfl

theorem shape_tryAgain (x : Closure) {c : Call} (f : Failure) {i : Nat} {s0 : Stats}
    (hget : c.requests[i]? = some s0) (s : Stats) (hs : s.attempt = s0.attempt) :
    (tryAgain x c f i s).shape = c.shape.tryAgain x := by
  unfold tryAgain Shape.tryAgain
  by_cases h : (c.attempt : Int) < x.maxRetry
  · simp [h, Call.shape, Call.kind]
  · have h1 : ¬ ((c.shape.attempt : Int) < x.maxRetry) := h
    simp only [h, h1, ↓reduceIte]
    rw [shape_reject_stats, shape_setStats hget]
    exact hs

theorem shape_handle (d : Collaborators) (x : Closure) (c : Call) (i : Nat) (o : Outcome) :
    (handle d x c i o).shape = c.shape.handle x i o.verdict := by
  cases hget : c.requests[i]? with
  | none =>
    have hi : ¬ i < c.shape.attempts.length := by
      have := List.getElem?_eq_none_iff.mp hget
      simp only [Call.shape, List.length_map]
      omega
    cases o <;> simp [handle, onResponse, onError, hget, Shape.handle, hi]
  | some s0 =>
    have hi : i < c.shape.attempts.length := by
      obtain ⟨h, _⟩ := List.getElem?_eq_some_iff.mp hget
      simpa [Call.shape] using h
    simp only [Shape.handle, hi, ↓reduceIte]
    cases o with
    | error now e =>
      simp only [handle, onError, hget, Outcome.verdict]
      rw [shape_tryAgain x _ (getElem?_setStats hget _), shape_setStats hget] <;> rfl
    | response now statusCode headers body =>
      simp only [handle, onResponse, hget, Outcome.verdict]
      cases hbody : readStreamPromise body with
      | pending =>
        simp only []
        rw [shape_setStats hget]
        rfl
      | rejected e =>
        simp only []
        have h1 : (c.setStats i { s0 with
            end_ := some now, code := some statusCode,
            responseHeaders := some headers }).shape = c.shape := by
          apply shape_setStats hget
          rfl
        simp only [Call.shape, Call.kind, Call.setStats, Shape.mk.injEq] at h1 ⊢
        simp [h1]
      | resolved buffer =>
        simp only []
        by_cases h400 : statusCode = 400
        · simp only [h400, ↓reduceIte]
          rw [shape_reject_error, shape_setStats hget]
          rfl
        · by_cases h401 : statusCode > 400
          · simp only [h400, h401, ↓reduceIte]
            rw [shape_tryAgain x _ (getElem?_setStats hget _), shape_setStats hget] <;> rfl
          · by_cases h299 : statusCode > 299
            · simp only [h400, h401, h299, ↓reduceIte]
              rw [shape_resolve, shape_setStats (getElem?_setStats hget _),
                shape_setStats hget] <;> rfl
            · simp only [h400, h401, h299, ↓reduceIte]
              rw [shape_resolve, shape_setStats hget]
              rfl

theorem shape_onTimer (d : Collaborators) (x : Closure) (c : Call) :
    (onTimer d x c).shape = c.shape.onTimer d x := by
  unfold onTimer Shape.onTimer
  by_cases ht : c.timers = 0
  · have h1 : c.shape.timers = 0 := ht
    simp [ht, h1]
  · have h1 : ¬ c.shape.timers = 0 := ht
    simp only [ht, h1, ↓reduceIte]
    cases hv : timeoutInvalid d x.timeout with
    | true =>
      rw [post_of_invalid d x _ hv]
      simp [Call.shape, Call.kind, Closure.fresh, buildResponse]
    | false =>
      rw [post_of_valid d x _ hv]
      simp [Call.shape, Call.kind, Closure.fresh, buildResponse]

theorem shape_run (d : Collaborators) (x : Closure) (outcomes : List Outcome) :
    ∀ c : Call, (run d x c outcomes).shape =
      Shape.run d x c.shape (outcomes.map Outcome.verdict) := by
  induction outcomes with
  | nil => intro c; rfl
  | cons o rest ih =>
    intro c
    have hlen : c.shape.attempts.length = c.requests.length := by simp [Call.shape]
    have hh := shape_handle d x c (c.requests.length - 1) o
    have ht : (handle d x c (c.requests.length - 1) o).timers =
        (c.shape.handle x (c.requests.length - 1) o.verdict).timers := by
      rw [← hh]
      rfl
    simp only [run, List.map_cons, Shape.run, hlen]
    by_cases h0 : (handle d x c (c.requests.length - 1) o).timers = 0
    · have h1 := h0
      rw [ht] at h1
      simp only [h0, h1, ↓reduceIte, hh]
    · have h1 := h0
      rw [ht] at h1
      simp only [h0, h1, ↓reduceIte]
      rw [ih, shape_onTimer, hh]

theorem verdict_of_retryable {o : Outcome} (h : o.retryable = true) : o.verdict = .retry := by
  cases o with
  | error now e => rfl
  | response now statusCode headers body =>
    simp only [Outcome.retryable, Bool.and_eq_true, decide_eq_true_eq, drained_iff] at h
    obtain ⟨hcode, buffer, hbody⟩ := h
    have h400 : statusCode ≠ 400 := by omega
    simp [Outcome.verdict, hbody, h400, hcode]

theorem verdict_of_alike {os1 os2 : List Outcome} (h : List.Forall₂ Outcome.alike os1 os2) :
    os1.map Outcome.verdict = os2.map Outcome.verdict := by
  induction h with
  | nil => rfl
  | cons hab _ ih =>
    simp only [List.map_cons, ih, List.cons.injEq, and_true]
    rcases hab with rfl | ⟨h1, h2⟩
    · rfl
    · rw [verdict_of_retryable h1, verdict_of_retryable h2]

/-- C5: exchanging, anywhere in the outcomes of a call, a response above 400 for a
transport error or back changes neither the requests created nor the timers armed,
the effects, or the kind of state the promise ends in; and the error handler of an
attempt records status code 599, the time and the transport error in the record of
that attempt (the same error that tryAgain then gives the exhausted message, when
the attempts are used up). -/
theorem transport_errors_retry_like_server_errors (d : Collaborators) (cfg : Config)
    (now : Nat) (_endpoint : EndpointInput) (inputData : InputData)
    (options : DispatchOptions) (os1 os2 : List Outcome)
    (h : List.Forall₂ Outcome.alike os1 os2) :
    (dispatch d cfg now _endpoint inputData options os1).shape =
      (dispatch d cfg now _endpoint inputData options os2).shape ∧
    ∀ (x : Closure) (c : Call) (i t : Nat) (e : JSError) (s : Stats),
      c.requests[i]? = some s →
      (onError x c i t e).requests[i]? = some
        { s with code := some 599, end_ := some t,
                 err := some (if (c.attempt : Int) < x.maxRetry then e
                              else ⟨exhaustedMessage c.attempt e.message⟩) } := by
  constructor
  · unfold dispatch
    cases getEndpoint d _endpoint with
    | error e => rfl
    | ok endpoint =>
      simp only []
      rw [shape_run, shape_run, verdict_of_alike h]
  · intro x c i t e s hget
    obtain ⟨hi, _⟩ := List.getElem?_eq_some_iff.mp hget
    unfold onError tryAgain
    by_cases hlt : (c.attempt : Int) < x.maxRetry
    · simp [hget, hlt, Call.setStats, hi]
    · cases hp : c.promise <;> simp [hget, hlt, Call.setStats, Call.reject, hi, hp]

/-- Instance of C5: a 500 and a transport error exchanged on the first two
attempts, and the record of a first attempt that ends in a transport error. -/
theorem transport_errors_retry_like_server_errors_witness :
    (dispatch Collaborators.sample Config.sample 0 (.endpoint Endpoint.sample) "x" ⟨none, none⟩
        [Outcome.sample 1 500, .error 2 ⟨"ECONNRESET"⟩, Outcome.sample 3 200]).shape =
      (dispatch Collaborators.sample Config.sample 0 (.endpoint Endpoint.sample) "x" ⟨none, none⟩
        [.error 1 ⟨"ECONNREFUSED"⟩, Outcome.sample 2 503, Outcome.sample 3 200]).shape ∧
    (onError (scope Collaborators.sample Config.sample 0 Endpoint.sample "x" ⟨none, none⟩)
        ((scope Collaborators.sample Config.sample 0 Endpoint.sample "x" ⟨none, none⟩).started
          Collaborators.sample) 0 5 ⟨"ECONNREFUSED"⟩).requests.map
        (fun s => (s.code, s.end_, s.err)) = [(some 599, some 5, some ⟨"ECONNREFUSED"⟩)] :=
  have h := transport_errors_retry_like_server_errors Collaborators.sample Config.sample 0
    (.endpoint Endpoint.sample) "x" ⟨none, none⟩
    [Outcome.sample 1 500, .error 2 ⟨"ECONNRESET"⟩, Outcome.sample 3 200]
    [.error 1 ⟨"ECONNREFUSED"⟩, Outcome.sample 2 503, Outcome.sample 3 200]
    (.cons (Or.inr ⟨by decide, by decide⟩)
      (.cons (Or.inr ⟨by decide, by decide⟩) (.cons (Or.inl rfl) .nil)))
  ⟨h.1, by decide⟩

/-- What tryAgain does once the attempts are used up: when attempt n fails
retryably and n is not below maxRetry, the promise is rejected with the stats
record of attempt n itself, and the error is attached to that record; its message
states the attempt count n and ends with the message of the last underlying
error. The record is also the one kept for the last request created. -/
theorem exhausted_rejects_with_stats_record (d : Collaborators) (cfg : Config) (now : Nat)
    (_endpoint : EndpointInput) (inputData : InputData) (options : DispatchOptions)
    (x : Closure) (h : Starts d cfg now _endpoint inputData options x)
    (pre rest : List Outcome) (o : Outcome)
    (hpre : ∀ o1 ∈ pre, o1.retryable = true)
    (hbudget : pre ≠ [] → (pre.length : Int) < x.maxRetry)
    (ho : o.retryable = true) (hmax : x.maxRetry ≤ (pre.length : Int) + 1) :
    (dispatch d cfg now _endpoint inputData options (pre ++ o :: rest)).promise =
      .rejected (.stats
        { o.record (x.fresh (pre.length + 1)) with
          err := some ⟨"tryAgain has exceeded max delivery attempts (" ++
            toString (pre.length + 1) ++ "):" ++ o.failureText⟩ }) ∧
    (dispatch d cfg now _endpoint inputData options (pre ++ o :: rest)).requests.getLast? =
      some { o.record (x.fresh (pre.length + 1)) with
             err := some ⟨"tryAgain has exceeded max delivery attempts (" ++
               toString (pre.length + 1) ++ "):" ++ o.failureText⟩ } ∧
    (dispatch d cfg now _endpoint inputData options (pre ++ o :: rest)).requests.length =
      pre.length + 1 := by
  obtain ⟨c1, done1, hrun, hin, hatt, hlen⟩ := dispatch_reaches h pre hpre hbudget (o :: rest)
  have hb : ¬ (c1.attempt : Int) < x.maxRetry := by
    rw [hatt]
    push_cast
    omega
  rw [hrun, run_exhausted hin ho hb]
  simp [Outcome.exhausted, exhaustedMessage, hatt, hlen]

/-- C6, at the failing input: three attempts are allowed and the responses have
the statuses 500, 503 and 502. The promise is rejected with the stats record of
attempt 3, to which the exhausted error is attached, and not with an error that
carries the record; on the same endpoint a first response with status 400 is
rejected the other way round, with the error "400 Status" that carries the
record. -/
theorem exhausted_rejection_is_the_stats_record :
    (dispatch Collaborators.sample Config.sample 0 (.endpoint Endpoint.sample) "x" ⟨none, none⟩
        [Outcome.sample 1 500, Outcome.sample 2 503, Outcome.sample 3 502]).promise =
      .rejected (.stats
        { (scope Collaborators.sample Config.sample 0 Endpoint.sample "x" ⟨none, none⟩).fresh 3
          with end_ := some 3, code := some 502, responseHeaders := some [],
               responseBuffer := some [104, 105, 33],
               err := some
                 ⟨"tryAgain has exceeded max delivery attempts (3):Status Code: 502"⟩ }) ∧
    (dispatch Collaborators.sample Config.sample 0 (.endpoint Endpoint.sample) "x" ⟨none, none⟩
        [Outcome.sample 1 400]).promise =
      .rejected (.error ⟨"400 Status"⟩ (some
        { (scope Collaborators.sample Config.sample 0 Endpoint.sample "x" ⟨none, none⟩).fresh 1
          with end_ := some 1, code := some 400, responseHeaders := some [],
               responseBuffer := some [104, 105, 33] })) := by
  decide

/-! ### A call whose timeout is not a number -/

theorem promise_handle_of_rejected (d : Collaborators) (x : Closure) (c : Call) (i : Nat)
    (o : Outcome) (r : Rejection) (hp : c.promise = .rejected r) :
    (handle d x c i o).promise = .rejected r := by
  cases o with
  | error now e =>
    simp only [handle, onError, tryAgain]
    split
    · exact hp
    · split <;> simp [Call.reject, Call.setStats, hp]
  | response now statusCode headers body =>
    simp only [handle, onResponse, tryAgain]
    split
    · exact hp
    · split
      · simpa [Call.setStats] using hp
      · simpa [Call.setStats] using hp
      · split_ifs <;> simp [Call.reject, Call.resolve, Call.setStats, hp]

theorem promise_onTimer (d : Collaborators) (x : Closure) (c : Call) :
    (onTimer d x c).promise = c.promise := by
  unfold onTimer
  split
  · rfl
  · cases hv : timeoutInvalid d x.timeout with
    | true => simp only [post_of_invalid d x _ hv]
    | false => simp only [post_of_valid d x _ hv]

theorem trace_handle (d : Collaborators) (x : Closure) (c : Call) (i : Nat) (o : Outcome) :
    (handle d x c i o).trace = c.trace ∨
      (handle d x c i o).trace = c.trace ++ [.setTimeout 500] := by
  have h : (handle d x c i o).trace = (c.shape.handle x i o.verdict).trace := by
    rw [← shape_handle]
    rfl
  rw [h]
  have hs : ∀ k, (c.shape.settle k).trace = c.trace := by
    intro k
    unfold Shape.settle
    split <;> rfl
  unfold Shape.handle
  split
  · split
    · exact Or.inl rfl
    · exact Or.inl rfl
    · exact Or.inl (hs _)
    · unfold Shape.tryAgain
      split
      · exact Or.inr rfl
      · exact Or.inl (hs _)
    · exact Or.inl (hs _)
    · exact Or.inl (hs _)
  · exact Or.inl rfl

theorem run_of_invalid (d : Collaborators) (x : Closure)
    (hT : timeoutInvalid d x.timeout = true) (r : Rejection) (outcomes : List Outcome) :
    ∀ c : Call, c.promise = .rejected r → c.trace.any Effect.sends = false →
      (run d x c outcomes).promise = .rejected r ∧
      (run d x c outcomes).trace.any Effect.sends = false := by
  induction outcomes with
  | nil => intro c hp ht; exact ⟨hp, ht⟩
  | cons o rest ih =>
    intro c hp ht
    have hp1 := promise_handle_of_rejected d x c (c.requests.length - 1) o r hp
    have ht1 : (handle d x c (c.requests.length - 1) o).trace.any Effect.sends = false := by
      rcases trace_handle d x c (c.requests.length - 1) o with h | h <;>
        simp [h, ht, Effect.sends, List.any_append]
    simp only [run]
    split
    · exact ⟨hp1, ht1⟩
    · rename_i hne
      apply ih
      · rw [promise_onTimer, hp1]
      · simp only [onTimer, hne, ↓reduceIte]
        rw [post_of_invalid d x _ hT]
        simp [ht1, Effect.sends, List.any_append]

/-- C7, as the code has it: outside the simulate mode, when the timeout taken
from the endpoint, or from REQUEST_TIMEOUT_MS when the endpoint has none, is
neither null nor undefined and coerces to NaN, promiseDataTo rejects with the
timeout error right after the request object of attempt 1 has been created:
nothing has been written to that request and it has not been ended. Whatever
happens afterwards, the promise stays rejected with that error and no request
of the call is ever written to or ended. -/
theorem invalid_timeout_rejects_unsent (d : Collaborators) (cfg : Config) (now : Nat)
    (_endpoint : EndpointInput) (inputData : InputData) (options : DispatchOptions)
    (endpoint : Endpoint) (hE : getEndpoint d _endpoint = .ok endpoint)
    (hS : cfg.SIMULATE.truthy = false)
    (hT : timeoutInvalid d (scope d cfg now endpoint inputData options).timeout = true) :
    promiseDataTo d cfg now _endpoint inputData options =
      { attempt := 1,
        promise := .rejected (.error
          ⟨"timeout param is not a number [" ++
            (scope d cfg now endpoint inputData options).timeout.toString ++ "]"⟩ none),
        requests := [(scope d cfg now endpoint inputData options).fresh 1],
        timers := 0,
        trace := [.encode, .buildHeaders,
          .request 1 (requestOptions (scope d cfg now endpoint inputData options))],
        unhandled := [] } ∧
    ∀ outcomes : List Outcome,
      (dispatch d cfg now _endpoint inputData options outcomes).promise =
        .rejected (.error
          ⟨"timeout param is not a number [" ++
            (scope d cfg now endpoint inputData options).timeout.toString ++ "]"⟩ none) ∧
      (dispatch d cfg now _endpoint inputData options outcomes).trace.any Effect.sends =
        false := by
  have h0 : promiseDataTo d cfg now _endpoint inputData options =
      (scope d cfg now endpoint inputData options).refused := by
    unfold promiseDataTo
    simp only [hE, hS, Bool.false_eq_true, ↓reduceIte]
    rw [post_of_invalid d _ _ hT]
    rfl
  refine ⟨h0, ?_⟩
  intro outcomes
  unfold dispatch
  simp only [hE]
  rw [h0]
  exact run_of_invalid d _ hT _ outcomes _ rfl rfl

/-- Instance of C7: the timeout "soon", followed by a transport error on the
request that was created. -/
theorem invalid_timeout_rejects_unsent_witness :
    (dispatch Collaborators.sample Config.sample 0
        (.endpoint { Endpoint.sample with timeout := .string "soon" }) "x" ⟨none, none⟩
        [.error 1 ⟨"ECONNREFUSED"⟩]).promise =
      .rejected (.error ⟨"timeout param is not a number [soon]"⟩ none) ∧
    (dispatch Collaborators.sample Config.sample 0
        (.endpoint { Endpoint.sample with timeout := .string "soon" }) "x" ⟨none, none⟩
        [.error 1 ⟨"ECONNREFUSED"⟩]).trace.any Effect.sends = false :=
  (invalid_timeout_rejects_unsent Collaborators.sample Config.sample 0
    (.endpoint { Endpoint.sample with timeout := .string "soon" }) "x" ⟨none, none⟩
    { Endpoint.sample with timeout := .string "soon" } rfl rfl (by decide)).2
    [.error 1 ⟨"ECONNREFUSED"⟩]

/-- C7 as stated fails: with the timeout "soon", which is supplied and does not
coerce to a number, a request object exists when promiseDataTo rejects; and in
simulate mode the same call resolves. -/
theorem invalid_timeout_request_created_first :
    timeoutInvalid Collaborators.sample (.string "soon") = true ∧
    (promiseDataTo Collaborators.sample Config.sample 0
        (.endpoint { Endpoint.sample with timeout := .string "soon" }) "x"
        ⟨none, none⟩).kind = .rejectedWithError ∧
    (promiseDataTo Collaborators.sample Config.sample 0
        (.endpoint { Endpoint.sample with timeout := .string "soon" }) "x"
        ⟨none, none⟩).trace =
      [.encode, .buildHeaders,
        .request 1 { host := "localhost", port := 8080, query := none, path := "/path",
                     method := "POST", headers := [("content-type", "application/json")] }] ∧
    (promiseDataTo Collaborators.sample { Config.sample with SIMULATE := .num 1 } 0
        (.endpoint { Endpoint.sample with timeout := .string "soon" }) "x"
        ⟨none, none⟩).kind = .resolved := by
  decide

/-- C8: on a falsy endpoint argument getEndpoint throws the error "EM: INVALID
ENDPOINT" and promiseDataTo rejects with it, having encoded nothing, built no
headers and created no request, and nothing follows; an argument that is an
Endpoint is returned as it is; every other truthy argument is passed to the
Endpoint constructor, whose result is returned. -/
theorem getEndpoint_contract (d : Collaborators) (cfg : Config) (now : Nat)
    (input : EndpointInput) (inputData : InputData) (options : DispatchOptions) :
    (input.truthy = false →
      getEndpoint d input = .error ⟨"EM: INVALID ENDPOINT"⟩ ∧
      promiseDataTo d cfg now input inputData options =
        { attempt := 1, promise := .rejected (.error ⟨"EM: INVALID ENDPOINT"⟩ none),
          requests := [], timers := 0, trace := [], unhandled := [] } ∧
      ∀ outcomes : List Outcome, dispatch d cfg now input inputData options outcomes =
        promiseDataTo d cfg now input inputData options) ∧
    (∀ e : Endpoint, input = .endpoint e → getEndpoint d input = .ok e) ∧
    (input.truthy = true → input.instanceofEndpoint = false →
      getEndpoint d input = .ok (d.newEndpoint input)) := by
  refine ⟨?_, ?_, ?_⟩
  · intro hf
    have hg : getEndpoint d input = .error ⟨"EM: INVALID ENDPOINT"⟩ := by
      simp [getEndpoint, hf]
    refine ⟨hg, ?_, ?_⟩
    · simp only [promiseDataTo, hg]
      rfl
    · intro outcomes
      simp only [dispatch, hg]
  · rintro e rfl
    rfl
  · intro ht hi
    cases input <;> simp_all [getEndpoint, EndpointInput.instanceofEndpoint]

/-- Instance of C8: the empty string, an Endpoint and a URL string. -/
theorem getEndpoint_contract_witness :
    (promiseDataTo Collaborators.sample Config.sample 0 (.string "") "x" ⟨none, none⟩).promise =
      .rejected (.error ⟨"EM: INVALID ENDPOINT"⟩ none) ∧
    (promiseDataTo Collaborators.sample Config.sample 0 (.string "") "x" ⟨none, none⟩).trace =
      [] ∧
    getEndpoint Collaborators.sample (.endpoint { Endpoint.sample with port := 1 }) =
      .ok { Endpoint.sample with port := 1 } ∧
    getEndpoint Collaborators.sample (.string "http://localhost:8080/path") =
      .ok (Collaborators.sample.newEndpoint (.string "http://localhost:8080/path")) :=
  have h1 := getEndpoint_contract Collaborators.sample Config.sample 0 (.string "") "x"
    ⟨none, none⟩
  have h2 := getEndpoint_contract Collaborators.sample Config.sample 0
    (.endpoint { Endpoint.sample with port := 1 }) "x" ⟨none, none⟩
  have h3 := getEndpoint_contract Collaborators.sample Config.sample 0
    (.string "http://localhost:8080/path") "x" ⟨none, none⟩
  ⟨by rw [(h1.1 (by decide)).2.1], by rw [(h1.1 (by decide)).2.1], h2.2.1 _ rfl,
    h3.2.2 (by decide) (by decide)⟩

/-! ### The request body -/

theorem any_isWrite_sendEffects (d : Collaborators) (x : Closure) (n : Nat)
    (h : writeMethods.contains (d.toUpperCase x.method) = false) :
    (sendEffects d x n).any Effect.isWrite = false := by
  unfold sendEffects
  split_ifs <;> simp_all [Effect.isWrite]

theorem run_no_write (d : Collaborators) (x : Closure)
    (h : writeMethods.contains (d.toUpperCase x.method) = false) (outcomes : List Outcome) :
    ∀ c : Call, c.trace.any Effect.isWrite = false →
      (run d x c outcomes).trace.any Effect.isWrite = false := by
  induction outcomes with
  | nil => intro c ht; exact ht
  | cons o rest ih =>
    intro c ht
    have ht1 : (handle d x c (c.requests.length - 1) o).trace.any Effect.isWrite = false := by
      rcases trace_handle d x c (c.requests.length - 1) o with h1 | h1 <;>
        simp [h1, ht, Effect.isWrite, List.any_append]
    simp only [run]
    split
    · exact ht1
    · rename_i hne
      apply ih
      simp only [onTimer, hne, ↓reduceIte]
      cases hv : timeoutInvalid d x.timeout with
      | true =>
        simp only [post_of_invalid d x _ hv]
        simp [ht1, Effect.isWrite, List.any_append]
      | false =>
        simp only [post_of_valid d x _ hv]
        simp [ht1, List.any_append, any_isWrite_sendEffects d x _ h]

theorem writeMethods_contains (m : String) :
    writeMethods.contains m = true ↔ (m = "PUT" ∨ m = "PATCH" ∨ m = "POST") := by
  simp [writeMethods]

/-- C9: a post that passes the timeout check writes the encoded payload to the
request of its attempt if and only if the upper-cased method is PUT, PATCH or
POST, and then ends the request; no post writes anything else; and when the
upper-cased method is none of the three, no body is written in the whole call,
whatever the input data and the outcomes are. -/
theorem body_written_iff_write_method (d : Collaborators) (cfg : Config) (now : Nat)
    (endpoint : Endpoint) (inputData : InputData) (options : DispatchOptions)
    (x : Closure) (hx : x = scope d cfg now endpoint inputData options) (c : Call) :
    (timeoutInvalid d x.timeout = false →
      (Effect.write c.attempt x.data ∈ (post d x c).1.trace.drop c.trace.length ↔
        (d.toUpperCase x.method = "PUT" ∨ d.toUpperCase x.method = "PATCH" ∨
          d.toUpperCase x.method = "POST")) ∧
      Effect.end_ c.attempt ∈ (post d x c).1.trace.drop c.trace.length) ∧
    (∀ (n : Nat) (body : Data), Effect.write n body ∈ (post d x c).1.trace.drop c.trace.length →
      n = c.attempt ∧ body = x.data ∧
      (d.toUpperCase x.method = "PUT" ∨ d.toUpperCase x.method = "PATCH" ∨
        d.toUpperCase x.method = "POST")) ∧
    (¬ (d.toUpperCase x.method = "PUT" ∨ d.toUpperCase x.method = "PATCH" ∨
          d.toUpperCase x.method = "POST") →
      ∀ (outcomes : List Outcome) (n : Nat) (body : Data),
        Effect.write n body ∉
          (dispatch d cfg now (.endpoint endpoint) inputData options outcomes).trace) := by
  refine ⟨?_, ?_, ?_⟩
  · intro hv
    rw [post_of_valid d x c hv]
    simp only [List.drop_left, ← writeMethods_contains]
    unfold sendEffects
    split_ifs <;> simp_all
  · intro n body hmem
    rw [← writeMethods_contains]
    cases hv : timeoutInvalid d x.timeout with
    | true =>
      rw [post_of_invalid d x c hv] at hmem
      simp at hmem
    | false =>
      rw [post_of_valid d x c hv] at hmem
      simp only [List.drop_left] at hmem
      unfold sendEffects at hmem
      split_ifs at hmem <;> simp_all
  · intro hm outcomes n body hmem
    rw [← writeMethods_contains] at hm
    have hm1 : writeMethods.contains (d.toUpperCase x.method) = false := by
      simpa using hm
    have hall : (dispatch d cfg now (.endpoint endpoint) inputData options outcomes).trace.any
        Effect.isWrite = false := by
      have hE : getEndpoint d (.endpoint endpoint) = .ok endpoint := rfl
      unfold dispatch
      simp only [hE]
      rw [← hx]
      apply run_no_write d x hm1
      unfold promiseDataTo
      simp only [hE]
      rw [← hx]
      split
      · simp [Call.resolve, Call.new, Effect.isWrite]
      · cases hv : timeoutInvalid d x.timeout with
        | true =>
          simp only [post_of_invalid d x _ hv]
          simp [Call.reject, Call.new, Effect.isWrite]
        | false =>
          simp only [post_of_valid d x _ hv]
          simp [Call.new, Effect.isWrite, List.any_append, any_isWrite_sendEffects d x _ hm1]
    rw [List.any_eq_false] at hall
    exact absurd rfl (hall _ hmem)

/-- Instance of C9: the method "patch" writes the payload, the method "get" never
does. -/
theorem body_written_iff_write_method_witness :
    Effect.write 1 "x" ∈
      (post Collaborators.sample
        (scope Collaborators.sample Config.sample 0
          { Endpoint.sample with method := some "patch" } "x" ⟨none, none⟩)
        Call.new).1.trace.drop Call.new.trace.length ∧
    Effect.write 1 "x" ∉
      (dispatch Collaborators.sample Config.sample 0
        (.endpoint { Endpoint.sample with method := some "get" }) "x" ⟨none, none⟩
        [Outcome.sample 1 500, Outcome.sample 2 200]).trace :=
  ⟨((body_written_iff_write_method Collaborators.sample Config.sample 0
      { Endpoint.sample with method := some "patch" } "x" ⟨none, none⟩ _ rfl Call.new).1
      (by decide)).1.mpr (by decide),
   (body_written_iff_write_method Collaborators.sample Config.sample 0
      { Endpoint.sample with method := some "get" } "x" ⟨none, none⟩ _ rfl Call.new).2.2
      (by decide) _ 1 "x"⟩

/-- C10, as the code has it: the method of the endpoint is used whenever the
endpoint has one; the method of the options is used only when the endpoint has
none and the options give a non-empty one; with neither it is POST. That method
is the one in the options of every request and the one the body-write test
reads. -/
theorem method_precedence (d : Collaborators) (cfg : Config) (now : Nat)
    (endpoint : Endpoint) (inputData : InputData) (options : DispatchOptions) (c : Call) :
    (∀ m : String, endpoint.method = some m →
      (scope d cfg now endpoint inputData options).method = m) ∧
    (endpoint.method = none → ∀ m : String, options.method = some m → m ≠ "" →
      (scope d cfg now endpoint inputData options).method = m) ∧
    (endpoint.method = none → (options.method = none ∨ options.method = some "") →
      (scope d cfg now endpoint inputData options).method = "POST") ∧
    ((post d (scope d cfg now endpoint inputData options) c).1.trace.drop c.trace.length).head? =
      some (.request c.attempt (requestOptions (scope d cfg now endpoint inputData options))) ∧
    (requestOptions (scope d cfg now endpoint inputData options)).method =
      (scope d cfg now endpoint inputData options).method := by
  refine ⟨?_, ?_, ?_, ?_, rfl⟩
  · intro m hm
    simp [scope, hm]
  · intro he m hm hne
    simp [scope, he, methodDefault, hm, hne]
  · intro he ho
    rcases ho with ho | ho <;> simp [scope, he, methodDefault, ho]
  · cases hv : timeoutInvalid d (scope d cfg now endpoint inputData options).timeout with
    | true =>
      rw [post_of_invalid d _ c hv]
      simp
    | false =>
      rw [post_of_valid d _ c hv]
      simp [sendEffects]

/-- Instance of C10: an endpoint without a method and options that ask for
PUT. -/
theorem method_precedence_witness :
    (scope Collaborators.sample Config.sample 0 Endpoint.sample "x" ⟨some "PUT", none⟩).method =
      "PUT" ∧
    (scope Collaborators.sample Config.sample 0 { Endpoint.sample with method := some "GET" }
      "x" ⟨some "PUT", none⟩).method = "GET" ∧
    (scope Collaborators.sample Config.sample 0 Endpoint.sample "x" ⟨some "", none⟩).method =
      "POST" :=
  ⟨(method_precedence Collaborators.sample Config.sample 0 Endpoint.sample "x"
      ⟨some "PUT", none⟩ Call.new).2.1 rfl "PUT" rfl (by decide),
   (method_precedence Collaborators.sample Config.sample 0
      { Endpoint.sample with method := some "GET" } "x" ⟨some "PUT", none⟩ Call.new).1 "GET" rfl,
   (method_precedence Collaborators.sample Config.sample 0 Endpoint.sample "x"
      ⟨some "", none⟩ Call.new).2.2.1 rfl (Or.inr rfl)⟩

/-- C10 as stated fails: with an endpoint whose method is GET and options whose
method is PUT, the request is made with GET and no body is written. -/
theorem options_method_does_not_override :
    (scope Collaborators.sample Config.sample 0 { Endpoint.sample with method := some "GET" }
      "x" ⟨some "PUT", none⟩).method ≠ "PUT" ∧
    (promiseDataTo Collaborators.sample Config.sample 0
        (.endpoint { Endpoint.sample with method := some "GET" }) "x" ⟨some "PUT", none⟩).trace =
      [.encode, .buildHeaders,
        .request 1 { host := "localhost", port := 8080, query := none, path := "/path",
                     method := "GET", headers := [("content-type", "application/json")] },
        .end_ 1] := by
  decide

/-! ### A budget of one attempt, and the simulate mode -/

theorem no_setTimeout_sendEffects (d : Collaborators) (x : Closure) (n ms : Nat) :
    Effect.setTimeout ms ∉ sendEffects d x n := by
  unfold sendEffects
  split_ifs <;> simp

/-- C11: with maxRetry = 1, a first attempt that fails with a drained response
above 400 or with a transport error makes promiseDataTo reject at once with the
record of attempt 1, which carries the exhausted error with the count 1; one
request has been created, no timer is armed and no setTimeout has been called,
whatever outcomes would follow. -/
theorem single_attempt_budget_rejects_at_once (d : Collaborators) (cfg : Config) (now : Nat)
    (_endpoint : EndpointInput) (inputData : InputData) (options : DispatchOptions)
    (x : Closure) (h : Starts d cfg now _endpoint inputData options x)
    (hmax : x.maxRetry = 1) (o : Outcome) (ho : o.retryable = true) (rest : List Outcome) :
    (dispatch d cfg now _endpoint inputData options (o :: rest)).promise =
      .rejected (.stats
        { o.record (x.fresh 1) with
          err := some ⟨"tryAgain has exceeded max delivery attempts (1):" ++ o.failureText⟩ }) ∧
    (dispatch d cfg now _endpoint inputData options (o :: rest)).requests.length = 1 ∧
    (dispatch d cfg now _endpoint inputData options (o :: rest)).attempt = 1 ∧
    (dispatch d cfg now _endpoint inputData options (o :: rest)).timers = 0 ∧
    ∀ ms : Nat, Effect.setTimeout ms ∉
      (dispatch d cfg now _endpoint inputData options (o :: rest)).trace := by
  have hb : ¬ ((x.started d).attempt : Int) < x.maxRetry := by
    rw [hmax]
    show ¬ ((1 : Nat) : Int) < 1
    omega
  rw [dispatch_of_starts h, run_exhausted (inFlight_started d x) ho hb]
  refine ⟨?_, rfl, rfl, rfl, ?_⟩
  · have e : (x.started d).attempt = 1 := rfl
    have hs : "tryAgain has exceeded max delivery attempts (" ++ toString 1 ++ "):" =
        "tryAgain has exceeded max delivery attempts (1):" := by decide
    simp only [Outcome.exhausted, exhaustedMessage, e, hs]
  · intro ms hmem
    simp only [Closure.started, List.mem_append, List.mem_cons, List.mem_singleton,
      List.not_mem_nil, or_false] at hmem
    rcases hmem with (h1 | h1) | h1
    · cases h1
    · cases h1
    · exact no_setTimeout_sendEffects d x 1 ms h1

/-- Instance of C11: one attempt allowed and a transport error. -/
theorem single_attempt_budget_rejects_at_once_witness :
    ∃ s, (dispatch Collaborators.sample Config.sample 0
        (.endpoint { Endpoint.sample with maxRetry := some 1 }) "x" ⟨none, none⟩
        [.error 4 ⟨"ECONNREFUSED"⟩, Outcome.sample 600 200]).promise = .rejected (.stats s) ∧
      s.err = some ⟨"tryAgain has exceeded max delivery attempts (1):ECONNREFUSED"⟩ ∧
      (dispatch Collaborators.sample Config.sample 0
        (.endpoint { Endpoint.sample with maxRetry := some 1 }) "x" ⟨none, none⟩
        [.error 4 ⟨"ECONNREFUSED"⟩, Outcome.sample 600 200]).requests.length = 1 :=
  have h := single_attempt_budget_rejects_at_once Collaborators.sample Config.sample 0
    (.endpoint { Endpoint.sample with maxRetry := some 1 }) "x" ⟨none, none⟩ _
    ⟨{ Endpoint.sample with maxRetry := some 1 }, rfl, rfl, rfl, rfl⟩ rfl
    (.error 4 ⟨"ECONNREFUSED"⟩) rfl [Outcome.sample 600 200]
  ⟨_, h.1, by decide, h.2.1⟩

/-- C12: when SIMULATE is truthy and the endpoint argument resolves,
promiseDataTo resolves in the executor with the record that simulatedResponse
returns for the endpoint, the input data, the built headers, the compress flag
and the start time; no request is created, no timer is armed, and no outcome
changes anything afterwards. -/
theorem simulate_resolves_without_request (d : Collaborators) (cfg : Config) (now : Nat)
    (_endpoint : EndpointInput) (inputData : InputData) (options : DispatchOptions)
    (endpoint : Endpoint) (hE : getEndpoint d _endpoint = .ok endpoint)
    (hS : cfg.SIMULATE.truthy = true) :
    promiseDataTo d cfg now _endpoint inputData options =
      { attempt := 1,
        promise := .resolved (d.simulatedResponse endpoint inputData
          (getHeaders d endpoint (some options)
            (scope d cfg now endpoint inputData options).data
            (scope d cfg now endpoint inputData options).compress)
          (scope d cfg now endpoint inputData options).compress now),
        requests := [], timers := 0, trace := [.encode, .buildHeaders, .simulate],
        unhandled := [] } ∧
    ∀ outcomes : List Outcome, dispatch d cfg now _endpoint inputData options outcomes =
      promiseDataTo d cfg now _endpoint inputData options := by
  have h0 : promiseDataTo d cfg now _endpoint inputData options =
      { attempt := 1,
        promise := .resolved (d.simulatedResponse endpoint inputData
          (getHeaders d endpoint (some options)
            (scope d cfg now endpoint inputData options).data
            (scope d cfg now endpoint inputData options).compress)
          (scope d cfg now endpoint inputData options).compress now),
        requests := [], timers := 0, trace := [.encode, .buildHeaders, .simulate],
        unhandled := [] } := by
    unfold promiseDataTo
    simp only [hE, hS, ↓reduceIte]
    rfl
  refine ⟨h0, ?_⟩
  intro outcomes
  unfold dispatch
  simp only [hE]
  cases outcomes with
  | nil => rfl
  | cons o rest =>
    rw [h0]
    cases o <;> simp [run, handle, onResponse, onError]

/-- Instance of C12: SIMULATE is 1. -/
theorem simulate_resolves_without_request_witness :
    (dispatch Collaborators.sample { Config.sample with SIMULATE := .num 1 } 7
        (.endpoint Endpoint.sample) "x" ⟨none, none⟩ [Outcome.sample 8 500]).promise =
      .resolved (Collaborators.sample.simulatedResponse Endpoint.sample "x"
        [("content-type", "application/json")] false 7) ∧
    (dispatch Collaborators.sample { Config.sample with SIMULATE := .num 1 } 7
        (.endpoint Endpoint.sample) "x" ⟨none, none⟩ [Outcome.sample 8 500]).requests = [] :=
  have h := simulate_resolves_without_request Collaborators.sample
    { Config.sample with SIMULATE := .num 1 } 7 (.endpoint Endpoint.sample) "x" ⟨none, none⟩
    Endpoint.sample rfl rfl
  ⟨by rw [h.2, h.1]; rfl, by rw [h.2, h.1]⟩

/-! ### Headers and the response reader -/

/-- C14: when the options have a headers entry, getHeaders passes the
normalized override, and nothing else, to setHeaders, so that the result is the
same for every endpoint; when the options are absent or have no headers entry,
the headers of the endpoint are passed. The headers of a call are built this way
from its options. -/
theorem header_overrides_replace_defaults (d : Collaborators) (cfg : Config) (now : Nat)
    (endpoint : Endpoint) (inputData : InputData) (options : Option DispatchOptions)
    (data : Data) (compress : Bool) :
    (∀ (o : DispatchOptions) (h : HeaderMap), options = some o → o.headers = some h →
      getHeaders d endpoint options data compress =
        d.setHeaders (d.headersToObject h) data compress ∧
      ∀ other : Endpoint, getHeaders d other options data compress =
        getHeaders d endpoint options data compress) ∧
    ((options = none ∨ ∃ o, options = some o ∧ o.headers = none) →
      getHeaders d endpoint options data compress =
        d.setHeaders endpoint.headers data compress) ∧
    (∀ o : DispatchOptions, (scope d cfg now endpoint inputData o).headers =
      getHeaders d endpoint (some o) (scope d cfg now endpoint inputData o).data
        (scope d cfg now endpoint inputData o).compress) := by
  refine ⟨?_, ?_, ?_⟩
  · intro o h ho hh
    subst ho
    simp [getHeaders, hh]
  · rintro (ho | ⟨o, ho, hh⟩)
    · subst ho
      rfl
    · subst ho
      simp [getHeaders, hh]
  · intro o
    rfl

/-- Instance of C14: an override with one header against the default header of
the endpoint. -/
theorem header_overrides_replace_defaults_witness :
    getHeaders Collaborators.sample Endpoint.sample (some ⟨none, some [("x-trace", "1")]⟩)
      "x" false = [("x-trace", "1")] ∧
    getHeaders Collaborators.sample Endpoint.sample (some ⟨none, none⟩) "x" false =
      [("content-type", "application/json")] :=
  have h := header_overrides_replace_defaults Collaborators.sample Config.sample 0
    Endpoint.sample "x" (some ⟨none, some [("x-trace", "1")]⟩) "x" false
  have h1 := header_overrides_replace_defaults Collaborators.sample Config.sample 0
    Endpoint.sample "x" (some ⟨none, none⟩) "x" false
  ⟨(h.1 _ _ rfl rfl).1, h1.2.1 (Or.inr ⟨_, rfl, rfl⟩)⟩

theorem listen_data_append (chunks : List Bytes) (tail : List StreamEvent) :
    ∀ buffers : List Bytes,
      readStreamPromise.listen buffers (chunks.map StreamEvent.data ++ tail) =
        readStreamPromise.listen (buffers ++ chunks) tail := by
  induction chunks with
  | nil => intro buffers; simp
  | cons chunk chunks ih =>
    intro buffers
    have h := ih (buffers ++ [chunk])
    simp only [List.append_assoc, List.singleton_append] at h
    simpa [readStreamPromise.listen] using h

theorem listen_resolved_has_end (events : List StreamEvent) :
    ∀ (buffers : List Bytes) (buffer : Bytes),
      readStreamPromise.listen buffers events = .resolved buffer → StreamEvent.end_ ∈ events := by
  induction events with
  | nil =>
    intro buffers buffer h
    simp [readStreamPromise.listen] at h
  | cons ev rest ih =>
    intro buffers buffer h
    cases ev with
    | data chunk =>
      simp only [readStreamPromise.listen] at h
      exact List.mem_cons_of_mem _ (ih _ _ h)
    | end_ => exact List.mem_cons_self _ _
    | error e => simp [readStreamPromise.listen] at h

/-- C15: for the chunks c1 to ck followed by the end event, readStreamPromise
resolves with the concatenation of the chunks in the order of arrival, whatever
is emitted after the end; for a stream without an end event it never resolves,
and it is pending while only chunks have arrived; for chunks followed by an
error event it rejects with that error. -/
theorem readStreamPromise_contract (chunks : List Bytes) (rest events : List StreamEvent)
    (e : JSError) :
    readStreamPromise (chunks.map StreamEvent.data ++ StreamEvent.end_ :: rest) =
      .resolved chunks.flatten ∧
    readStreamPromise (chunks.map StreamEvent.data) = .pending ∧
    (StreamEvent.end_ ∉ events → ∀ buffer : Bytes, readStreamPromise events ≠ .resolved buffer) ∧
    readStreamPromise (chunks.map StreamEvent.data ++ StreamEvent.error e :: rest) =
      .rejected e := by
  refine ⟨?_, ?_, ?_, ?_⟩
  · simp [readStreamPromise, listen_data_append, readStreamPromise.listen]
  · have h := listen_data_append chunks [] []
    simp only [List.append_nil, List.nil_append] at h
    simp [readStreamPromise, h, readStreamPromise.listen]
  · intro hno buffer h
    exact hno (listen_resolved_has_end events [] buffer h)
  · simp [readStreamPromise, listen_data_append, readStreamPromise.listen]

/-- Instance of C15: two chunks, then the end; and a stream that stops after an
error. -/
theorem readStreamPromise_contract_witness :
    readStreamPromise [.data [104, 105], .data [33], .end_, .data [0]] =
      .resolved [104, 105, 33] ∧
    readStreamPromise [.data [104, 105], .error ⟨"aborted"⟩] ≠ .resolved [104, 105] ∧
    readStreamPromise [.data [104, 105], .error ⟨"aborted"⟩, .end_] = .rejected ⟨"aborted"⟩ :=
  have h := readStreamPromise_contract [[104, 105], [33]] [.data [0]]
    [.data [104, 105], .error ⟨"aborted"⟩] ⟨"aborted"⟩
  have h1 := readStreamPromise_contract [[104, 105]] [.end_] [] ⟨"aborted"⟩
  ⟨h.1, h.2.2.1 (by decide) [104, 105], h1.2.2.2⟩

/-! ### The socket timeout -/

theorem attempts_handle (d : Collaborators) (x : Closure) (c : Call) (i : Nat) (o : Outcome) :
    (handle d x c i o).requests.map Stats.attempt = c.requests.map Stats.attempt := by
  have h : (handle d x c i o).requests.map Stats.attempt =
      (c.shape.handle x i o.verdict).attempts := by
    rw [← shape_handle]
    rfl
  rw [h]
  have hs : ∀ k, (c.shape.settle k).attempts = c.requests.map Stats.attempt := by
    intro k
    unfold Shape.settle
    split <;> rfl
  unfold Shape.handle
  split
  · split
    · rfl
    · rfl
    · exact hs _
    · unfold Shape.tryAgain
      split
      · rfl
      · exact hs _
    · exact hs _
    · exact hs _
  · rfl

theorem socketTimeout_mem_sendEffects (d : Collaborators) (x : Closure) (n : Nat)
    (hn : x.timeout.isNullish = false) :
    Effect.socketTimeout n x.timeout ∈ sendEffects d x n := by
  unfold sendEffects
  simp [hn]

theorem run_armed (d : Collaborators) (x : Closure)
    (hv : timeoutInvalid d x.timeout = false) (hn : x.timeout.isNullish = false)
    (outcomes : List Outcome) :
    ∀ c : Call, (∀ n ∈ c.requests.map Stats.attempt, Effect.socketTimeout n x.timeout ∈ c.trace) →
      ∀ n ∈ (run d x c outcomes).requests.map Stats.attempt,
        Effect.socketTimeout n x.timeout ∈ (run d x c outcomes).trace := by
  induction outcomes with
  | nil => intro c hc; exact hc
  | cons o rest ih =>
    intro c hc
    have h1 : ∀ n ∈ (handle d x c (c.requests.length - 1) o).requests.map Stats.attempt,
        Effect.socketTimeout n x.timeout ∈ (handle d x c (c.requests.length - 1) o).trace := by
      intro n hmem
      rw [attempts_handle] at hmem
      rcases trace_handle d x c (c.requests.length - 1) o with h | h
      · rw [h]
        exact hc n hmem
      · rw [h]
        exact List.mem_append_left _ (hc n hmem)
    simp only [run]
    split
    · exact h1
    · rename_i hne
      apply ih
      intro n hmem
      simp only [onTimer, hne, ↓reduceIte, post_of_valid d x _ hv, List.map_append,
        List.mem_append, List.map_cons, List.map_nil, List.mem_singleton] at hmem ⊢
      rcases hmem with hmem | hmem
      · exact Or.inl (h1 n hmem)
      · right
        subst hmem
        exact socketTimeout_mem_sendEffects d x _ hn

theorem inFlight_onSocketTimeout {x : Closure} {c : Call} {done : List Stats}
    (hin : InFlight x c done) (n : Nat) : InFlight x (onSocketTimeout c n) done :=
  ⟨hin.promise, hin.timers, hin.requests, hin.attempt, hin.numbered⟩

/-- C13: with a timeout that is neither null nor undefined and coerces to a
number, every post registers the socket timeout of its own attempt with that
value, between the creation of the request and its end, so that every request of
a call has one; the listener of attempt n aborts the request of attempt n and
touches nothing else; and when the timeout of the attempt in flight expires
before a response, the error that the aborted request emits goes to tryAgain like
any transport error: code 599 and the error are recorded for that attempt alone,
a retry is armed while the attempt number is below maxRetry, and otherwise the
promise is rejected with the exhausted record. -/
theorem socket_timeout_armed_per_attempt (d : Collaborators) (cfg : Config) (now : Nat)
    (_endpoint : EndpointInput) (inputData : InputData) (options : DispatchOptions)
    (x : Closure) (h : Starts d cfg now _endpoint inputData options x)
    (hn : x.timeout.isNullish = false) (pre outcomes : List Outcome)
    (hpre : ∀ o ∈ pre, o.retryable = true)
    (hbudget : pre ≠ [] → (pre.length : Int) < x.maxRetry) (t : Nat) (e : JSError) :
    (∀ c : Call, (post d x c).1.trace = c.trace ++
      ([.request c.attempt (requestOptions x), .socketTimeout c.attempt x.timeout] ++
        (if writeMethods.contains (d.toUpperCase x.method) then [.write c.attempt x.data]
         else []) ++ [.end_ c.attempt])) ∧
    (∀ n ∈ (dispatch d cfg now _endpoint inputData options outcomes).requests.map Stats.attempt,
      Effect.socketTimeout n x.timeout ∈
        (dispatch d cfg now _endpoint inputData options outcomes).trace) ∧
    (∀ (c : Call) (n : Nat), onSocketTimeout c n = { c with trace := c.trace ++ [.abort n] }) ∧
    (∃ done : List Stats,
      (dispatch d cfg now _endpoint inputData options pre).requests =
        done ++ [x.fresh (pre.length + 1)] ∧
      (((pre.length : Int) + 1 < x.maxRetry) →
        expire x (dispatch d cfg now _endpoint inputData options pre) (pre.length + 1) t e =
          { dispatch d cfg now _endpoint inputData options pre with
            requests := done ++ [{ x.fresh (pre.length + 1) with
              err := some e, code := some 599, end_ := some t }],
            timers := 1,
            trace := (dispatch d cfg now _endpoint inputData options pre).trace ++
              [.abort (pre.length + 1), .setTimeout 500] }) ∧
      (¬ ((pre.length : Int) + 1 < x.maxRetry) →
        expire x (dispatch d cfg now _endpoint inputData options pre) (pre.length + 1) t e =
          { dispatch d cfg now _endpoint inputData options pre with
            requests := done ++ [{ x.fresh (pre.length + 1) with
              err := some ⟨exhaustedMessage (pre.length + 1) e.message⟩, code := some 599,
              end_ := some t }],
            promise := .rejected (.stats { x.fresh (pre.length + 1) with
              err := some ⟨exhaustedMessage (pre.length + 1) e.message⟩, code := some 599,
              end_ := some t }),
            trace := (dispatch d cfg now _endpoint inputData options pre).trace ++
              [.abort (pre.length + 1)] })) := by
  have hv : timeoutInvalid d x.timeout = false := by
    obtain ⟨_, _, _, _, hT⟩ := h
    exact hT
  refine ⟨?_, ?_, ?_, ?_⟩
  · intro c
    rw [post_of_valid d x c hv]
    simp [sendEffects, hn]
  · rw [dispatch_of_starts h]
    apply run_armed d x hv hn
    intro n hmem
    simp only [Closure.started, List.map_cons, List.map_nil, List.mem_singleton] at hmem
    subst hmem
    exact List.mem_append_right _ (socketTimeout_mem_sendEffects d x _ hn)
  · intro c n
    rfl
  · obtain ⟨c1, done1, hrun, hin, hatt, hlen⟩ := dispatch_reaches h pre hpre hbudget []
    simp only [List.append_nil, run] at hrun
    rw [hrun]
    have hreq : c1.requests = done1 ++ [x.fresh (pre.length + 1)] := by
      rw [hin.requests, hatt]
    refine ⟨done1, hreq, ?_, ?_⟩
    · intro hlt
      have hin2 := inFlight_onSocketTimeout hin (pre.length + 1)
      have hidx : pre.length + 1 - 1 =
          (onSocketTimeout c1 (pre.length + 1)).requests.length - 1 := by
        simp [onSocketTimeout, hreq, hlen]
      have hh := handle_retryable (d := d) hin2 (o := .error t e) rfl
      simp only [handle] at hh
      unfold expire
      rw [hidx, hh]
      simp [tryAgain, onSocketTimeout, Outcome.record, hlt, hatt, hin.timers]
    · intro hge
      have hin2 := inFlight_onSocketTimeout hin (pre.length + 1)
      have hidx : pre.length + 1 - 1 =
          (onSocketTimeout c1 (pre.length + 1)).requests.length - 1 := by
        simp [onSocketTimeout, hreq, hlen]
      have hh := handle_retryable (d := d) hin2 (o := .error t e) rfl
      simp only [handle] at hh
      unfold expire
      rw [hidx, hh]
      have hge3 : x.maxRetry ≤ (pre.length : Int) + 1 := not_lt.mp hge
      simp [tryAgain, onSocketTimeout, Outcome.record, Outcome.failure, hge, hge3, hatt,
        Call.setStats, Call.reject, hin.promise, set_concat_length]

/-- Instance of C13: a timeout of 2000 and a first attempt that ends in a
transport error. -/
theorem socket_timeout_armed_per_attempt_witness :
    Effect.socketTimeout 1 (.number (.num 2000)) ∈
      (dispatch Collaborators.sample Config.sample 0
        (.endpoint { Endpoint.sample with timeout := .number (.num 2000) }) "x" ⟨none, none⟩
        [.error 1 ⟨"ECONNRESET"⟩]).trace ∧
    Effect.socketTimeout 2 (.number (.num 2000)) ∈
      (dispatch Collaborators.sample Config.sample 0
        (.endpoint { Endpoint.sample with timeout := .number (.num 2000) }) "x" ⟨none, none⟩
        [.error 1 ⟨"ECONNRESET"⟩]).trace ∧
    (expire (scope Collaborators.sample Config.sample 0
        { Endpoint.sample with timeout := .number (.num 2000) } "x" ⟨none, none⟩)
      (dispatch Collaborators.sample Config.sample 0
        (.endpoint { Endpoint.sample with timeout := .number (.num 2000) }) "x" ⟨none, none⟩ [])
      1 2000 ⟨"socket hang up"⟩).timers = 1 :=
  have h := socket_timeout_armed_per_attempt Collaborators.sample Config.sample 0
    (.endpoint { Endpoint.sample with timeout := .number (.num 2000) }) "x" ⟨none, none⟩ _
    ⟨{ Endpoint.sample with timeout := .number (.num 2000) }, rfl, rfl, rfl, rfl⟩ rfl
    [] [.error 1 ⟨"ECONNRESET"⟩] (by decide) (by decide) 2000 ⟨"socket hang up"⟩
  have ⟨_, _, hlt, _⟩ := h.2.2.2
  ⟨h.2.1 1 (by decide), h.2.1 2 (by decide), congrArg Call.timers (hlt (by decide))⟩

/-! ### An error of the response stream -/

/-- C16, at the failing input: the first of three attempts gets a response with
status 200 whose stream emits one chunk and then an error. The rejection of
readStreamPromise escapes the response callback: tryAgain is not called, no retry
timer is armed, no second request is created and the promise stays pending,
while the error is left unhandled. -/
theorem stream_error_leaves_call_pending :
    (dispatch Collaborators.sample Config.sample 0 (.endpoint Endpoint.sample) "x" ⟨none, none⟩
      [.response 1 200 [] [.data [104], .error ⟨"aborted"⟩], Outcome.sample 2 200]) =
      { attempt := 1, promise := .pending,
        requests := [{ (scope Collaborators.sample Config.sample 0 Endpoint.sample "x"
            ⟨none, none⟩).fresh 1 with
          end_ := some 1, code := some 200, responseHeaders := some [] }],
        timers := 0,
        trace := [.encode, .buildHeaders,
          .request 1 { host := "localhost", port := 8080, query := none, path := "/path",
                       method := "POST", headers := [("content-type", "application/json")] },
          .write 1 "x", .end_ 1],
        unhandled := [⟨"aborted"⟩] } := by
  decide

/-! ### The records of a call -/

theorem handle_not_retryable {d : Collaborators} {x : Closure} {c : Call} {done : List Stats}
    (hin : InFlight x c done) {o : Outcome} (ho : o.retryable = false) :
    (handle d x c (c.requests.length - 1) o).timers = 0 ∧
    (handle d x c (c.requests.length - 1) o).attempt = c.attempt ∧
    (∀ s, (handle d x c (c.requests.length - 1) o).promise ≠ .rejected (.stats s)) ∧
    ∃ s1, (handle d x c (c.requests.length - 1) o).requests = done ++ [s1] ∧
      s1.attempt = c.attempt ∧ s1.start = x.start := by
  have hlen : c.requests.length - 1 = done.length := by simp [hin.requests]
  have hget : c.requests[done.length]? = some (x.fresh c.attempt) := by simp [hin.requests]
  cases o with
  | error now e => simp [Outcome.retryable] at ho
  | response now statusCode headers body =>
    cases hbody : readStreamPromise body with
    | resolved buffer =>
      have hd : drained body = true := (drained_iff body).mpr ⟨buffer, hbody⟩
      have hcode : ¬ statusCode > 400 := by
        intro hgt
        simp [Outcome.retryable, hd, hgt] at ho
      rw [handle_drained hin now statusCode headers hbody]
      by_cases h400 : statusCode = 400
      · simp [h400, hin.timers, Outcome.record, Closure.fresh, buildResponse]
      · by_cases h299 : statusCode > 299
        · simp [h400, hcode, h299, hin.timers, Outcome.record, Closure.fresh, buildResponse]
        · simp [h400, hcode, h299, hin.timers, Outcome.record, Closure.fresh, buildResponse]
    | pending =>
      simp only [handle, onResponse]
      rw [hlen, hget]
      simp [hbody, Call.setStats, hin.requests, set_concat_length, hin.timers, hin.promise,
        Closure.fresh, buildResponse]
    | rejected e =>
      simp only [handle, onResponse]
      rw [hlen, hget]
      simp [hbody, Call.setStats, hin.requests, set_concat_length, hin.timers, hin.promise,
        Closure.fresh, buildResponse]

theorem records_concat {x : Closure} {done : List Stats} (s1 : Stats)
    (hnum : done.map Stats.attempt = List.range' 1 done.length)
    (hstart : ∀ s ∈ done, s.start = x.start)
    (h1 : s1.attempt = done.length + 1) (h2 : s1.start = x.start) :
    (done ++ [s1]).map Stats.attempt = List.range' 1 (done ++ [s1]).length ∧
    ∀ s ∈ done ++ [s1], s.start = x.start := by
  constructor
  · simp [List.range'_concat, hnum, h1, Nat.add_comm]
  · intro s hs
    rcases List.mem_append.mp hs with h | h
    · exact hstart s h
    · rw [List.mem_singleton.mp h]
      exact h2

theorem run_records {d : Collaborators} {x : Closure}
    (hv : timeoutInvalid d x.timeout = false) (outcomes : List Outcome) :
    ∀ {c : Call} {done : List Stats}, InFlight x c done → (∀ s ∈ done, s.start = x.start) →
      (run d x c outcomes).requests.map Stats.attempt =
        List.range' 1 (run d x c outcomes).requests.length ∧
      (∀ s ∈ (run d x c outcomes).requests, s.start = x.start) ∧
      c.attempt ≤ (run d x c outcomes).requests.length ∧
      ((run d x c outcomes).requests.length : Int) ≤ max (c.attempt : Int) x.maxRetry ∧
      ∀ s, (run d x c outcomes).promise = .rejected (.stats s) →
        ∃ text, s.err = some ⟨exhaustedMessage (run d x c outcomes).requests.length text⟩ := by
  induction outcomes with
  | nil =>
    intro c done hin hstart
    have hrec := records_concat (x.fresh c.attempt) hin.numbered hstart hin.attempt rfl
    simp only [run, hin.requests]
    refine ⟨hrec.1, hrec.2, ?_, ?_, ?_⟩
    · simp [hin.attempt]
    · have : ((done ++ [x.fresh c.attempt]).length : Int) = (c.attempt : Int) := by
        simp [hin.attempt]
      rw [this]
      exact le_max_left _ _
    · intro s hs
      rw [hin.promise] at hs
      cases hs
  | cons o rest ih =>
    intro c done hin hstart
    cases ho : o.retryable with
    | true =>
      by_cases hb : (c.attempt : Int) < x.maxRetry
      · rw [run_retry hin hv ho hb rest]
        have hin1 := inFlight_retried hin d o
        have hstart1 : ∀ s ∈ done ++ [o.record (x.fresh c.attempt)], s.start = x.start := by
          intro s hs
          rcases List.mem_append.mp hs with h | h
          · exact hstart s h
          · rw [List.mem_singleton.mp h]
            cases o <;> rfl
        obtain ⟨h1, h2, h3, h4, h5⟩ := ih hin1 hstart1
        have hatt : (c.retried d x done o).attempt = c.attempt + 1 := rfl
        refine ⟨h1, h2, ?_, ?_, h5⟩
        · rw [hatt] at h3
          omega
        · rw [hatt] at h4
          have hm : max (((c.attempt + 1 : Nat)) : Int) x.maxRetry = x.maxRetry := by
            apply max_eq_right
            push_cast
            omega
          rw [hm] at h4
          exact le_trans h4 (le_max_right _ _)
      · rw [run_exhausted hin ho hb rest]
        have hrec := records_concat (o.exhausted (x.fresh c.attempt) c.attempt)
          hin.numbered hstart (by cases o <;> exact hin.attempt) (by cases o <;> rfl)
        refine ⟨hrec.1, hrec.2, ?_, ?_, ?_⟩
        · simp [hin.attempt]
        · have : ((done ++ [o.exhausted (x.fresh c.attempt) c.attempt]).length : Int) =
              (c.attempt : Int) := by
            simp [hin.attempt]
          simp only [this]
          exact le_max_left _ _
        · intro s hs
          simp only [Settled.rejected.injEq, Rejection.stats.injEq] at hs
          refine ⟨o.failureText, ?_⟩
          rw [← hs]
          simp [Outcome.exhausted, hin.attempt]
    | false =>
      obtain ⟨ht, hatt, hp, s1, hreq, h1, h2⟩ := handle_not_retryable (d := d) hin ho
      have hrun : run d x c (o :: rest) = handle d x c (c.requests.length - 1) o := by
        simp [run, ht]
      rw [hrun, hreq]
      have hrec := records_concat s1 hin.numbered hstart (by rw [h1, hin.attempt]) h2
      refine ⟨hrec.1, hrec.2, ?_, ?_, ?_⟩
      · simp [hin.attempt]
      · have : ((done ++ [s1]).length : Int) = (c.attempt : Int) := by
          simp [hin.attempt]
        rw [this]
        exact le_max_left _ _
      · intro s hs
        exact absurd hs (hp s)

/-- C19: in a call that reaches the attempt loop, for every integer maxRetry and
every list of outcomes, one per attempt, the number k of requests created is at
least 1 and at most max(1, maxRetry), the attempt numbers of their records are
1, 2, ..., k in this order, and when the promise is rejected with the exhausted
record, the count in its message is k. -/
theorem requests_bounded_and_numbered (d : Collaborators) (cfg : Config) (now : Nat)
    (_endpoint : EndpointInput) (inputData : InputData) (options : DispatchOptions)
    (x : Closure) (h : Starts d cfg now _endpoint inputData options x)
    (outcomes : List Outcome) :
    1 ≤ (dispatch d cfg now _endpoint inputData options outcomes).requests.length ∧
    ((dispatch d cfg now _endpoint inputData options outcomes).requests.length : Int) ≤
      max 1 x.maxRetry ∧
    (dispatch d cfg now _endpoint inputData options outcomes).requests.map Stats.attempt =
      List.range' 1 (dispatch d cfg now _endpoint inputData options outcomes).requests.length ∧
    ∀ s, (dispatch d cfg now _endpoint inputData options outcomes).promise =
        .rejected (.stats s) →
      ∃ text, s.err = some ⟨"tryAgain has exceeded max delivery attempts (" ++
        toString (dispatch d cfg now _endpoint inputData options outcomes).requests.length ++
        "):" ++ text⟩ := by
  have hv : timeoutInvalid d x.timeout = false := by
    obtain ⟨_, _, _, _, hT⟩ := h
    exact hT
  obtain ⟨h1, _, h3, h4, h5⟩ := run_records hv outcomes (inFlight_started d x)
    (fun s hs => absurd hs (List.not_mem_nil s))
  rw [dispatch_of_starts h]
  exact ⟨h3, h4, h1, h5⟩

/-- Instance of C19: maxRetry is -2 and the first attempt gets a 500. -/
theorem requests_bounded_and_numbered_witness :
    ((dispatch Collaborators.sample Config.sample 0
        (.endpoint { Endpoint.sample with maxRetry := some (-2) }) "x" ⟨none, none⟩
        [Outcome.sample 1 500, Outcome.sample 2 200]).requests.length : Int) ≤ max 1 (-2) ∧
    1 ≤ (dispatch Collaborators.sample Config.sample 0
        (.endpoint { Endpoint.sample with maxRetry := some (-2) }) "x" ⟨none, none⟩
        [Outcome.sample 1 500, Outcome.sample 2 200]).requests.length ∧
    (dispatch Collaborators.sample Config.sample 0
        (.endpoint { Endpoint.sample with maxRetry := some (-2) }) "x" ⟨none, none⟩
        [Outcome.sample 1 500, Outcome.sample 2 200]).kind = .rejectedWithStats :=
  have h := requests_bounded_and_numbered Collaborators.sample Config.sample 0
    (.endpoint { Endpoint.sample with maxRetry := some (-2) }) "x" ⟨none, none⟩ _
    ⟨{ Endpoint.sample with maxRetry := some (-2) }, rfl, rfl, rfl, rfl⟩
    [Outcome.sample 1 500, Outcome.sample 2 200]
  ⟨h.2.1, h.1, by decide⟩

/-! ### Sequential attempts -/

theorem reject_fields (c : Call) (r : Rejection) :
    (c.reject r).requests = c.requests ∧ (c.reject r).timers = c.timers ∧
    (c.reject r).trace = c.trace := by
  unfold Call.reject
  split <;> exact ⟨rfl, rfl, rfl⟩

theorem resolve_fields (c : Call) (s : Stats) :
    (c.resolve s).requests = c.requests ∧ (c.resolve s).timers = c.timers ∧
    (c.resolve s).trace = c.trace := by
  unfold Call.resolve
  split <;> exact ⟨rfl, rfl, rfl⟩

theorem set_last {init : List Stats} {s0 : Stats} {l : List Stats} (hreq : l = init ++ [s0])
    (s1 : Stats) : l.set init.length s1 = init ++ [s1] := by
  rw [hreq, set_concat_length]

theorem tryAgain_last (x : Closure) (c : Call) (f : Failure) (init : List Stats) (s : Stats)
    (hreq : c.requests = init ++ [s]) (ht : c.timers = 0) (hs : s.terminated = true) :
    ∃ s1, (tryAgain x c f init.length s).requests = init ++ [s1] ∧
      (((tryAgain x c f init.length s).timers = 0 ∧
          (tryAgain x c f init.length s).trace = c.trace) ∨
        ((tryAgain x c f init.length s).timers = 1 ∧
          (tryAgain x c f init.length s).trace = c.trace ++ [.setTimeout 500] ∧
          s1.terminated = true)) := by
  unfold tryAgain
  by_cases hlt : (c.attempt : Int) < x.maxRetry
  · refine ⟨s, ?_, Or.inr ?_⟩
    · simp [hlt, hreq]
    · simp [hlt, ht, hs]
  · simp only [hlt, ↓reduceIte]
    exact ⟨_, ((reject_fields _ _).1).trans (set_last hreq _),
      Or.inl ⟨((reject_fields _ _).2.1).trans ht, (reject_fields _ _).2.2⟩⟩

theorem handle_last (d : Collaborators) (x : Closure) (c : Call) (o : Outcome)
    (init : List Stats) (s0 : Stats) (hreq : c.requests = init ++ [s0]) (ht : c.timers = 0) :
    ∃ s1, (handle d x c (c.requests.length - 1) o).requests = init ++ [s1] ∧
      (((handle d x c (c.requests.length - 1) o).timers = 0 ∧
          (handle d x c (c.requests.length - 1) o).trace = c.trace) ∨
        ((handle d x c (c.requests.length - 1) o).timers = 1 ∧
          (handle d x c (c.requests.length - 1) o).trace = c.trace ++ [.setTimeout 500] ∧
          s1.terminated = true)) := by
  have hlen : c.requests.length - 1 = init.length := by simp [hreq]
  have hget : c.requests[init.length]? = some s0 := by simp [hreq]
  rw [hlen]
  cases o with
  | error now e =>
    simp only [handle, onError, hget]
    apply tryAgain_last
    · exact set_last hreq _
    · exact ht
    · simp [Stats.terminated]
  | response now statusCode headers body =>
    simp only [handle, onResponse, hget]
    cases hbody : readStreamPromise body with
    | pending => exact ⟨_, set_last hreq _, Or.inl ⟨ht, rfl⟩⟩
    | rejected e => exact ⟨_, set_last hreq _, Or.inl ⟨ht, rfl⟩⟩
    | resolved buffer =>
      simp only []
      by_cases h400 : statusCode = 400
      · simp only [h400, ↓reduceIte]
        exact ⟨_, ((reject_fields _ _).1).trans (set_last hreq _),
          Or.inl ⟨((reject_fields _ _).2.1).trans ht, (reject_fields _ _).2.2⟩⟩
      · by_cases h401 : statusCode > 400
        · simp only [h400, h401, ↓reduceIte]
          apply tryAgain_last
          · exact set_last hreq _
          · exact ht
          · simp [Stats.terminated]
        · by_cases h299 : statusCode > 299
          · simp only [h400, h401, h299, ↓reduceIte]
            exact ⟨_, ((resolve_fields _ _).1).trans (set_last (set_last hreq _) _),
              Or.inl ⟨((resolve_fields _ _).2.1).trans ht, (resolve_fields _ _).2.2⟩⟩
          · simp only [h400, h401, h299, ↓reduceIte]
            exact ⟨_, ((resolve_fields _ _).1).trans (set_last hreq _),
              Or.inl ⟨((resolve_fields _ _).2.1).trans ht, (resolve_fields _ _).2.2⟩⟩

theorem sequential_handle (d : Collaborators) (x : Closure) {c : Call} (hc : Sequential c)
    (ht : c.timers = 0) (o : Outcome) :
    Sequential (handle d x c (c.requests.length - 1) o) := by
  rcases List.eq_nil_or_concat c.requests with hnil | ⟨init, s0, hreq⟩
  · have hsame : handle d x c (c.requests.length - 1) o = c := by
      cases o <;> simp [handle, onResponse, onError, hnil]
    rw [hsame]
    exact hc
  · rw [List.concat_eq_append] at hreq
    have hinit : ∀ s ∈ init, s.terminated = true := by
      have := hc.earlier
      rw [hreq, List.dropLast_concat] at this
      exact this
    have hissued := hc.issued
    rw [ht] at hissued
    obtain ⟨s1, hr, hcase⟩ := handle_last d x c o init s0 hreq ht
    have hlen : (handle d x c (c.requests.length - 1) o).requests.length = c.requests.length := by
      rw [hr, hreq]
      simp
    rcases hcase with ⟨h0, htr⟩ | ⟨h1, htr, hs1⟩
    · refine ⟨by omega, ?_, ?_, ?_, ?_⟩
      · rw [hr, List.dropLast_concat]
        exact hinit
      · intro hpos
        omega
      · rw [htr]
        exact hc.delay
      · rw [hlen, h0, htr]
        exact hissued
    · refine ⟨by omega, ?_, ?_, ?_, ?_⟩
      · rw [hr, List.dropLast_concat]
        exact hinit
      · intro _ s hs
        rw [hr] at hs
        rcases List.mem_append.mp hs with h | h
        · exact hinit s h
        · rw [List.mem_singleton.mp h]
          exact hs1
      · rw [htr]
        intro ms hms
        rcases List.mem_append.mp hms with h | h
        · exact hc.delay ms h
        · simpa using h
      · rw [hlen, h1, htr, List.count_append]
        simp
        omega

theorem count_setTimeout_sendEffects (d : Collaborators) (x : Closure) (n : Nat) :
    (sendEffects d x n).count (.setTimeout 500) = 0 :=
  List.count_eq_zero.mpr (no_setTimeout_sendEffects d x n 500)

theorem sequential_onTimer (d : Collaborators) (x : Closure) {c : Call} (hc : Sequential c) :
    Sequential (onTimer d x c) := by
  unfold onTimer
  by_cases ht : c.timers = 0
  · simp only [ht, ↓reduceIte]
    exact hc
  · have h1 : c.timers = 1 := by
      have := hc.timers
      omega
    have hall := hc.pending (by omega)
    have hissued := hc.issued
    rw [h1] at hissued
    simp only [ht, ↓reduceIte]
    cases hv : timeoutInvalid d x.timeout with
    | true =>
      simp only [post_of_invalid d x _ hv]
      refine ⟨by simp [h1], ?_, ?_, ?_, ?_⟩
      · simp only [List.dropLast_concat]
        exact hall
      · intro hpos
        simp [h1] at hpos
      · intro ms hms
        simp only [List.mem_append, List.mem_singleton] at hms
        rcases hms with h | h
        · exact hc.delay ms h
        · cases h
      · simp only [List.length_append, List.length_singleton, h1, List.count_append]
        simp
        omega
    | false =>
      simp only [post_of_valid d x _ hv]
      refine ⟨by simp [h1], ?_, ?_, ?_, ?_⟩
      · simp only [List.dropLast_concat]
        exact hall
      · intro hpos
        simp [h1] at hpos
      · intro ms hms
        rcases List.mem_append.mp hms with h | h
        · exact hc.delay ms h
        · exact absurd h (no_setTimeout_sendEffects d x _ ms)
      · simp only [List.length_append, List.length_singleton, h1, List.count_append,
          count_setTimeout_sendEffects]
        omega

theorem sequential_of_reachable (d : Collaborators) (x : Closure) {c0 c : Call}
    (h0 : Sequential c0) (h : Reachable d x c0 c) : Sequential c := by
  induction h with
  | start => exact h0
  | deliver o _ ht ih => exact sequential_handle d x ih ht o
  | fire _ ih => exact sequential_onTimer d x ih

theorem awaiting_of_sequential {c : Call} (hc : Sequential c) :
    c.awaiting.length + c.timers ≤ 1 := by
  have hnot : ∀ s : Stats, s.terminated = true → s.end_.isNone = false := by
    intro s hs
    unfold Stats.terminated at hs
    cases he : s.end_ <;> simp_all
  unfold Call.awaiting
  rcases List.eq_nil_or_concat c.requests with hnil | ⟨init, s0, hreq⟩
  · have := hc.timers
    simp [hnil]
    exact this
  · rw [List.concat_eq_append] at hreq
    have hinit : init.filter (fun s => s.end_.isNone) = [] := by
      apply List.filter_eq_nil_iff.mpr
      intro s hs
      have h1 := hc.earlier
      rw [hreq, List.dropLast_concat] at h1
      simp [hnot s (h1 s hs)]
    rw [hreq, List.filter_append, hinit, List.nil_append]
    by_cases ht : c.timers = 0
    · rw [ht]
      simp only [List.filter_cons, List.filter_nil]
      split <;> simp
    · have h1 : c.timers = 1 := by
        have := hc.timers
        omega
      have hs0 : s0.terminated = true := by
        apply hc.pending (by omega)
        rw [hreq]
        simp
      simp [hnot s0 hs0, h1]

theorem sequential_promiseDataTo (d : Collaborators) (cfg : Config) (now : Nat)
    (_endpoint : EndpointInput) (inputData : InputData) (options : DispatchOptions) :
    Sequential (promiseDataTo d cfg now _endpoint inputData options) ∧
    (promiseDataTo d cfg now _endpoint inputData options).timers = 0 := by
  unfold promiseDataTo
  cases hE : getEndpoint d _endpoint with
  | error e =>
    simp only []
    refine ⟨⟨?_, ?_, ?_, ?_, ?_⟩, ?_⟩ <;> simp [Call.reject, Call.new]
  | ok endpoint =>
    simp only []
    split
    · refine ⟨⟨?_, ?_, ?_, ?_, ?_⟩, ?_⟩ <;> simp [Call.resolve, Call.new]
    · cases hv : timeoutInvalid d (scope d cfg now endpoint inputData options).timeout with
      | true =>
        simp only [post_of_invalid d _ _ hv]
        refine ⟨⟨?_, ?_, ?_, ?_, ?_⟩, ?_⟩ <;> simp [Call.reject, Call.new]
      | false =>
        simp only [post_of_valid d _ _ hv]
        refine ⟨⟨?_, ?_, ?_, ?_, ?_⟩, ?_⟩ <;> simp [Call.new]
        · intro ms hms
          exact absurd hms (no_setTimeout_sendEffects d _ _ ms)

theorem run_reachable (d : Collaborators) (x : Closure) (c0 : Call) (h0 : Sequential c0)
    (outcomes : List Outcome) :
    ∀ c : Call, Reachable d x c0 c → c.timers = 0 → Reachable d x c0 (run d x c outcomes) := by
  induction outcomes with
  | nil => intro c hc _; exact hc
  | cons o rest ih =>
    intro c hc ht
    have h1 : Reachable d x c0 (handle d x c (c.requests.length - 1) o) :=
      Reachable.deliver o hc ht
    simp only [run]
    split
    · exact h1
    · rename_i hne
      apply ih _ (Reachable.fire h1)
      have hs := (sequential_of_reachable d x h0 h1).timers
      simp only [onTimer, hne, ↓reduceIte]
      cases hv : timeoutInvalid d x.timeout with
      | true =>
        simp only [post_of_invalid d x _ hv]
        omega
      | false =>
        simp only [post_of_valid d x _ hv]
        omega

/-- C18, as the code has it: as long as the events of an attempt reach its
callbacks only before that attempt has armed a retry (as when every attempt has
exactly one outcome), the attempts of a call are made one after the other: in
every state that the call passes through, the requests in flight and the armed
timers are at most one together; every attempt before the last has terminated,
with its response drained or an error recorded, and so has the last one when a
timer is armed; every timer has the delay 500; and every request after the first
has used up one armed timer. The states of a call whose attempts have one outcome
each are among these. -/
theorem attempts_sequential_before_retry (d : Collaborators) (cfg : Config) (now : Nat)
    (_endpoint : EndpointInput) (inputData : InputData) (options : DispatchOptions)
    (endpoint : Endpoint) (hE : getEndpoint d _endpoint = .ok endpoint) (c : Call)
    (hc : Reachable d (scope d cfg now endpoint inputData options)
      (promiseDataTo d cfg now _endpoint inputData options) c)
    (outcomes : List Outcome) :
    c.awaiting.length + c.timers ≤ 1 ∧
    (∀ s ∈ c.requests.dropLast, s.terminated = true) ∧
    (0 < c.timers → ∀ s ∈ c.requests, s.terminated = true) ∧
    (∀ ms : Nat, Effect.setTimeout ms ∈ c.trace → ms = 500) ∧
    c.requests.length + c.timers ≤ 1 + c.trace.count (.setTimeout 500) ∧
    Reachable d (scope d cfg now endpoint inputData options)
      (promiseDataTo d cfg now _endpoint inputData options)
      (dispatch d cfg now _endpoint inputData options outcomes) := by
  obtain ⟨h0, ht0⟩ := sequential_promiseDataTo d cfg now _endpoint inputData options
  have hs := sequential_of_reachable d _ h0 hc
  refine ⟨awaiting_of_sequential hs, hs.earlier, hs.pending, hs.delay, hs.issued, ?_⟩
  unfold dispatch
  simp only [hE]
  exact run_reachable d _ _ h0 outcomes _ Reachable.start ht0

/-- Instance of C18: a call whose first attempt gets a 500 and whose second
attempt ends in a transport error. -/
theorem attempts_sequential_before_retry_witness :
    (dispatch Collaborators.sample Config.sample 0 (.endpoint Endpoint.sample) "x" ⟨none, none⟩
        [Outcome.sample 1 500, .error 600 ⟨"ECONNRESET"⟩]).awaiting.length +
      (dispatch Collaborators.sample Config.sample 0 (.endpoint Endpoint.sample) "x"
        ⟨none, none⟩ [Outcome.sample 1 500, .error 600 ⟨"ECONNRESET"⟩]).timers ≤ 1 :=
  have h0 := attempts_sequential_before_retry Collaborators.sample Config.sample 0
    (.endpoint Endpoint.sample) "x" ⟨none, none⟩ Endpoint.sample rfl _ Reachable.start
    [Outcome.sample 1 500, .error 600 ⟨"ECONNRESET"⟩]
  (attempts_sequential_before_retry Collaborators.sample Config.sample 0
    (.endpoint Endpoint.sample) "x" ⟨none, none⟩ Endpoint.sample rfl _ h0.2.2.2.2.2 []).1

/-- C18 as stated fails: when the first attempt delivers a drained response with
status 503, which arms the retry timer, and then also an error event, tryAgain
runs a second time and arms a second timer; after both timers have fired three
requests exist and attempts 2 and 3 are in flight together. -/
theorem second_event_arms_second_retry :
    (onError (scope Collaborators.sample Config.sample 0 Endpoint.sample "x" ⟨none, none⟩)
      (onResponse Collaborators.sample
        (scope Collaborators.sample Config.sample 0 Endpoint.sample "x" ⟨none, none⟩)
        (promiseDataTo Collaborators.sample Config.sample 0 (.endpoint Endpoint.sample) "x"
          ⟨none, none⟩) 0 1 503 [] [.end_])
      0 2 ⟨"EPIPE"⟩).timers = 2 ∧
    ((onTimer Collaborators.sample
      (scope Collaborators.sample Config.sample 0 Endpoint.sample "x" ⟨none, none⟩)
      (onTimer Collaborators.sample
        (scope Collaborators.sample Config.sample 0 Endpoint.sample "x" ⟨none, none⟩)
        (onError (scope Collaborators.sample Config.sample 0 Endpoint.sample "x" ⟨none, none⟩)
          (onResponse Collaborators.sample
            (scope Collaborators.sample Config.sample 0 Endpoint.sample "x" ⟨none, none⟩)
            (promiseDataTo Collaborators.sample Config.sample 0 (.endpoint Endpoint.sample) "x"
              ⟨none, none⟩) 0 1 503 [] [.end_])
          0 2 ⟨"EPIPE"⟩))).requests.map (fun s => (s.attempt, s.end_))) =
      [(1, some 2), (2, none), (3, none)] := by
  decide

/-! ### The start and the end of the records -/

theorem set_twice {α : Type} (l : List α) (i : Nat) (a b : α) :
    (l.set i a).set i b = l.set i b := by
  simp

theorem tryAgain_requests (x : Closure) (c : Call) (f : Failure) (i : Nat) (s : Stats) :
    (tryAgain x c f i s).requests = c.requests ∨
      ∃ s1, s1.end_ = s.end_ ∧ (tryAgain x c f i s).requests = c.requests.set i s1 := by
  unfold tryAgain
  split
  · exact Or.inl rfl
  · exact Or.inr ⟨_, by rfl, (reject_fields _ _).1⟩

theorem handle_requests (d : Collaborators) (x : Closure) (c : Call) (i : Nat) (o : Outcome) :
    (handle d x c i o).requests = c.requests ∨
      ∃ s1, s1.end_ = some o.time ∧ (handle d x c i o).requests = c.requests.set i s1 := by
  cases o with
  | error now e =>
    simp only [handle, onError, Outcome.time]
    split
    · exact Or.inl rfl
    · rename_i stats _
      rcases tryAgain_requests x
        (c.setStats i { stats with err := some e, code := some 599, end_ := some now })
        (.error e) i { stats with err := some e, code := some 599, end_ := some now }
        with h | ⟨s1, he, h⟩
      · exact Or.inr ⟨_, by rfl, h⟩
      · refine Or.inr ⟨s1, he, ?_⟩
        rw [h]
        simp [Call.setStats]
  | response now statusCode headers body =>
    simp only [handle, onResponse, Outcome.time]
    split
    · exact Or.inl rfl
    · rename_i stats _
      split
      · exact Or.inr ⟨_, by rfl, rfl⟩
      · exact Or.inr ⟨_, by rfl, rfl⟩
      · rename_i buffer _
        split_ifs
        · exact Or.inr ⟨_, by rfl, (reject_fields _ _).1⟩
        · rcases tryAgain_requests x
            (c.setStats i { stats with
              end_ := some now, code := some statusCode, responseHeaders := some headers,
              responseBuffer := some buffer })
            (.text ("Status Code: " ++ toString statusCode)) i
            { stats with
              end_ := some now, code := some statusCode, responseHeaders := some headers,
              responseBuffer := some buffer } with h | ⟨s1, he, h⟩
          · exact Or.inr ⟨_, by rfl, h⟩
          · refine Or.inr ⟨s1, he, ?_⟩
            rw [h]
            simp [Call.setStats]
        · exact Or.inr ⟨_, by rfl, ((resolve_fields _ _).1).trans (set_twice _ _ _ _)⟩
        · exact Or.inr ⟨_, by rfl, (resolve_fields _ _).1⟩

theorem run_ends (d : Collaborators) (x : Closure) (lo : Nat) (outcomes : List Outcome) :
    ∀ c : Call, (∀ s ∈ c.requests, ∀ t, s.end_ = some t → lo ≤ t) →
      (∀ o ∈ outcomes, lo ≤ o.time) →
      ∀ s ∈ (run d x c outcomes).requests, ∀ t, s.end_ = some t → lo ≤ t := by
  induction outcomes with
  | nil => intro c hc _; exact hc
  | cons o rest ih =>
    intro c hc hout
    have ho : lo ≤ o.time := hout o (List.mem_cons_self _ _)
    have h1 : ∀ s ∈ (handle d x c (c.requests.length - 1) o).requests,
        ∀ t, s.end_ = some t → lo ≤ t := by
      intro s hs t ht
      rcases handle_requests d x c (c.requests.length - 1) o with h | ⟨s1, he, h⟩
      · rw [h] at hs
        exact hc s hs t ht
      · rw [h] at hs
        rcases List.mem_or_eq_of_mem_set hs with hm | hm
        · exact hc s hm t ht
        · rw [hm, he] at ht
          cases ht
          exact ho
    simp only [run]
    split
    · exact h1
    · rename_i hne
      apply ih _ _ (fun o1 h2 => hout o1 (List.mem_cons_of_mem _ h2))
      intro s hs t ht
      simp only [onTimer, hne, ↓reduceIte] at hs
      cases hv : timeoutInvalid d x.timeout with
      | true =>
        simp only [post_of_invalid d x _ hv, List.mem_append, List.mem_singleton] at hs
        rcases hs with hm | hm
        · exact h1 s hm t ht
        · rw [hm] at ht
          cases ht
      | false =>
        simp only [post_of_valid d x _ hv, List.mem_append, List.mem_singleton] at hs
        rcases hs with hm | hm
        · exact h1 s hm t ht
        · rw [hm] at ht
          cases ht

/-- C17, as the code has it: every post allocates a fresh record whose attempt
field is the current attempt number and whose start is the start time of the
call, which promiseDataTo takes once, before the first attempt; so the requests
of a call are numbered 1, 2, ... and all their records have the same start, the
time of the call; and when no outcome is observed before the call has started,
the start of every record, that of a retry included, is not later than the end of
any record of the call, that of the previous attempt included. -/
theorem records_share_call_start (d : Collaborators) (cfg : Config) (now : Nat)
    (_endpoint : EndpointInput) (inputData : InputData) (options : DispatchOptions)
    (x : Closure) (h : Starts d cfg now _endpoint inputData options x)
    (outcomes : List Outcome) (c : Call) :
    (post d x c).1.requests = c.requests ++
      [{ endpoint := x.endpoint, inputData := x.inputData, headers := x.headers,
         compress := x.compress, start := now, attempt := c.attempt, end_ := none,
         code := none, responseHeaders := none, responseBuffer := none, err := none }] ∧
    (dispatch d cfg now _endpoint inputData options outcomes).requests.map Stats.attempt =
      List.range' 1 (dispatch d cfg now _endpoint inputData options outcomes).requests.length ∧
    (∀ s ∈ (dispatch d cfg now _endpoint inputData options outcomes).requests, s.start = now) ∧
    ((∀ o ∈ outcomes, now ≤ o.time) →
      ∀ s ∈ (dispatch d cfg now _endpoint inputData options outcomes).requests,
      ∀ r ∈ (dispatch d cfg now _endpoint inputData options outcomes).requests,
      ∀ t, r.end_ = some t → s.start ≤ t) := by
  have hv : timeoutInvalid d x.timeout = false := by
    obtain ⟨_, _, _, _, hT⟩ := h
    exact hT
  have hnow : x.start = now := by
    obtain ⟨_, _, hx, _, _⟩ := h
    rw [hx]
    rfl
  have hrec := run_records hv outcomes (inFlight_started d x)
    (fun s hs => absurd hs (List.not_mem_nil s))
  have hstart : ∀ s ∈ (dispatch d cfg now _endpoint inputData options outcomes).requests,
      s.start = now := by
    rw [dispatch_of_starts h, ← hnow]
    exact hrec.2.1
  refine ⟨?_, ?_, hstart, ?_⟩
  · rw [post_of_valid d x c hv, ← hnow]
    rfl
  · rw [dispatch_of_starts h]
    exact hrec.1
  · intro hout s hs r hr t ht
    rw [hstart s hs]
    rw [dispatch_of_starts h] at hr
    refine run_ends d x now outcomes (x.started d) ?_ hout r hr t ht
    intro s0 hs0 t0 ht0
    simp only [Closure.started, List.mem_singleton] at hs0
    rw [hs0] at ht0
    cases ht0

/-- Instance of C17: a call at time 100 whose first attempt fails at time 150. -/
theorem records_share_call_start_witness :
    (dispatch Collaborators.sample Config.sample 100 (.endpoint Endpoint.sample) "x"
        ⟨none, none⟩ [Outcome.sample 150 500]).requests.all
      (fun s => decide (s.start = 100)) = true ∧
    (dispatch Collaborators.sample Config.sample 100 (.endpoint Endpoint.sample) "x"
        ⟨none, none⟩ [Outcome.sample 150 500]).requests.all
      (fun s => (dispatch Collaborators.sample Config.sample 100 (.endpoint Endpoint.sample)
          "x" ⟨none, none⟩ [Outcome.sample 150 500]).requests.all
        (fun r => r.end_.all (fun t => decide (s.start ≤ t)))) = true :=
  have h := records_share_call_start Collaborators.sample Config.sample 100
    (.endpoint Endpoint.sample) "x" ⟨none, none⟩ _ ⟨Endpoint.sample, rfl, rfl, rfl, rfl⟩
    [Outcome.sample 150 500] Call.new
  ⟨List.all_eq_true.mpr (fun s hs => decide_eq_true (h.2.2.1 s hs)),
   List.all_eq_true.mpr (fun s hs => List.all_eq_true.mpr (fun r hr => by
     cases he : r.end_ with
     | none => rfl
     | some t => exact decide_eq_true (h.2.2.2 (by decide) s hs r hr t he)))⟩

/-- C17 as stated fails: in a call made at time 100 whose first attempt ends at
time 150 with a status 500, the record of the retry has the start 100, which is
before the end of the record of the first attempt. -/
theorem retry_record_starts_before_previous_end :
    (dispatch Collaborators.sample Config.sample 100 (.endpoint Endpoint.sample) "x"
        ⟨none, none⟩ [Outcome.sample 150 500]).requests.map
        (fun s => (s.attempt, s.start, s.end_)) =
      [(1, 100, some 150), (2, 100, none)] := by
  decide

end PromiseDataTo
